import Mathlib

/-!
Verification development for the chan-sccp configuration reconciliation engine
(src/sccp_config.c, src/common.h).

The engine applies textual (name, value) pairs to live objects through
declarative per-segment option tables, computes change classifications and
fills unset options from a default-resolution chain.

Modelling conventions:
* Machine strings are Lean `String`; a possibly-NULL `const char *` is
  `Option String`.
* Struct storage is addressed in the C source by `offsetof`-computed byte
  offsets into the destination struct.  The struct definitions themselves live
  in headers that are not part of src/, so storage is modelled from the spec
  ("storage offset+size into the destination object") as a finite map from
  field names to typed field values; two option rows alias exactly when their
  C rows use the same field (for example global "bindaddr"/"port", device
  "device"/"devicetype"/"type").  A row with offset 0 in C is modelled with
  field `none`.
* The enums `sccp_value_changed_t` and `sccp_configurationchange_t` are
  declared in sccp_config.h, which is not part of src/.  Modelled from the
  spec: the tri-state change indicator is `{no-change, changed,
  invalid-value}` and reconciliation passes accumulate results with bitwise
  OR, any needs-reset result forcing a needs-reset classification; the codes
  are therefore modelled as distinct naturals with needs-reset on its own bit.
  The C source freely mixes the two enums (`setValue` returns members of both),
  which the common numeric carrier makes representable.
* Logging (`pbx_log`, `sccp_log`) is I/O and dropped; the `description`
  column of the option tables feeds only log messages and is omitted.
* Conditional compilation: CS_DYNAMIC_CONFIG, CS_MANAGER_EVENTS,
  CS_SCCP_PICKUP and CS_SCCP_REALTIME are taken as defined,
  CS_ADV_FEATURES and CS_DEVSTATE_FEATURE as undefined.
-/

namespace ChanSCCP

/-! ### C library and asterisk helpers (external collaborators) -/

/-- ASCII lower-casing of a character code, as C tolower does for ASCII. -/
def lowerNat (n : Nat) : Nat :=
  if 65 ≤ n ∧ n ≤ 90 then n + 32 else n

/-- Case-folded character list of a string (for strcasecmp). -/
def caseFold (s : String) : List Nat :=
  s.data.map (fun c => lowerNat c.toNat)

/-- C strcasecmp equality: case-insensitive string comparison. -/
def strcaseEq (a b : String) : Bool :=
  caseFold a == caseFold b

/-- sccp_strlen_zero (sccp_utils): NULL or empty string. -/
def sccp_strlen_zero : Option String → Bool
  | none => true
  | some s => s.isEmpty

/-- ast_true (asterisk, external): yes/true/y/t/1/on, case-insensitively. -/
def sccp_true (s : Option String) : Bool :=
  match s with
  | none => false
  | some s =>
    strcaseEq s "yes" || strcaseEq s "true" || strcaseEq s "y" ||
    strcaseEq s "t" || strcaseEq s "1" || strcaseEq s "on"

/-- C atoi: optional leading whitespace and sign, then a decimal digit run. -/
def atoi (s : String) : Int :=
  let cs := s.data.dropWhile (fun c => c == ' ' || c == '\t' || c == '\n' || c == '\r')
  let signAndRest : Int × List Char :=
    match cs with
    | '-' :: rest => (-1, rest)
    | '+' :: rest => (1, rest)
    | _ => (1, cs)
  let digits := signAndRest.2.takeWhile Char.isDigit
  signAndRest.1 * (digits.foldl (fun acc c => acc * 10 + (c.toNat - 48)) (0 : Nat) : Nat)

/-- Value of a digit character for a base, if valid. -/
def digitVal (base : Nat) (c : Char) : Option Nat :=
  let n := c.toNat
  let v :=
    if 48 ≤ n ∧ n ≤ 57 then some (n - 48)
    else if 97 ≤ n ∧ n ≤ 102 then some (n - 87)
    else if 65 ≤ n ∧ n ≤ 70 then some (n - 55)
    else none
  match v with
  | some v => if v < base then some v else none
  | none => none

/-- Read a digit run in a base; fails if no digit is present. -/
def readDigits (base : Nat) (cs : List Char) : Option Nat :=
  let run := cs.takeWhile (fun c => (digitVal base c).isSome)
  if run.isEmpty then none
  else some (run.foldl (fun acc c => acc * base + ((digitVal base c).getD 0)) 0)

/-- C sscanf with %i: optional sign, then hex (0x), octal (0) or decimal. -/
def sscanf_i (s : String) : Option Int :=
  let cs := s.data.dropWhile (fun c => c == ' ' || c == '\t' || c == '\n' || c == '\r')
  let signAndRest : Int × List Char :=
    match cs with
    | '-' :: rest => (-1, rest)
    | '+' :: rest => (1, rest)
    | _ => (1, cs)
  match signAndRest.2 with
  | '0' :: 'x' :: rest => (readDigits 16 rest).map (fun n => signAndRest.1 * n)
  | '0' :: 'X' :: rest => (readDigits 16 rest).map (fun n => signAndRest.1 * n)
  | '0' :: rest =>
      match readDigits 8 rest with
      | some n => some (signAndRest.1 * n)
      | none => some 0
  | rest => (readDigits 10 rest).map (fun n => signAndRest.1 * n)

/-- C sscanf with %d: optional sign, then a decimal digit run. -/
def sscanf_d (s : String) : Option Int :=
  let cs := s.data.dropWhile (fun c => c == ' ' || c == '\t' || c == '\n' || c == '\r')
  let signAndRest : Int × List Char :=
    match cs with
    | '-' :: rest => (-1, rest)
    | '+' :: rest => (1, rest)
    | _ => (1, cs)
  (readDigits 10 signAndRest.2).map (fun n => signAndRest.1 * n)

/-- ast_copy_string / pbx_copy_string / sccp_copy_string: copy with truncation
to the declared field size (at most size - 1 characters plus NUL). -/
def pbx_copy_string (src : String) (size : Nat) : String :=
  String.mk (src.data.take (size - 1))

/-- Split a character list at a separator, strsep-style (an empty input yields
one empty token, separators at the ends yield empty tokens). -/
def splitOnCharAux (sep : Char) : List Char → List Char → List (List Char)
  | [], acc => [acc.reverse]
  | c :: rest, acc =>
    if c == sep then acc.reverse :: splitOnCharAux sep rest []
    else splitOnCharAux sep rest (c :: acc)

/-- strsep-compatible split of a string at a separator character. -/
def splitOnChar (sep : Char) (s : String) : List String :=
  (splitOnCharAux sep s.data []).map String.mk

/-- ast_strip / pbx_strip: strip surrounding whitespace. -/
def pbx_strip (s : String) : String := s.trim

/-! ### Config option enums and change codes -/

/-- enum SCCPConfigOptionType (data type tags of option rows). -/
inductive SCCPConfigOptionType where
  | SCCP_CONFIG_DATATYPE_BOOLEAN
  | SCCP_CONFIG_DATATYPE_INT
  | SCCP_CONFIG_DATATYPE_STRING
  | SCCP_CONFIG_DATATYPE_GENERIC
  | SCCP_CONFIG_DATATYPE_STRINGPTR
  | SCCP_CONFIG_DATATYPE_CHAR
deriving DecidableEq, Repr

export SCCPConfigOptionType (SCCP_CONFIG_DATATYPE_BOOLEAN SCCP_CONFIG_DATATYPE_INT SCCP_CONFIG_DATATYPE_STRING SCCP_CONFIG_DATATYPE_GENERIC SCCP_CONFIG_DATATYPE_STRINGPTR SCCP_CONFIG_DATATYPE_CHAR)

/-- enum SCCPConfigOptionFlag, a bitmask (options combine flags with |). -/
def SCCP_CONFIG_FLAG_IGNORE : Nat := 1

def SCCP_CONFIG_FLAG_NONE : Nat := 2

def SCCP_CONFIG_FLAG_DEPRECATED : Nat := 4

def SCCP_CONFIG_FLAG_OBSOLETE : Nat := 8

def SCCP_CONFIG_FLAG_CHANGED : Nat := 16

def SCCP_CONFIG_FLAG_REQUIRED : Nat := 32

def SCCP_CONFIG_FLAG_GET_DEVICE_DEFAULT : Nat := 64

def SCCP_CONFIG_FLAG_GET_GLOBAL_DEFAULT : Nat := 128

/-- Modelled from the spec: sccp_config.h (declaring sccp_value_changed_t and
sccp_configurationchange_t) is not part of src/.  The no-change indicator and
the no-update classification share the zero code, the other codes are distinct
bits so that bitwise-OR accumulation keeps every contribution visible. -/
def SCCP_CONFIG_CHANGE_NOCHANGE : Nat := 0

def SCCP_CONFIG_CHANGE_CHANGED : Nat := 1

def SCCP_CONFIG_CHANGE_INVALIDVALUE : Nat := 2

def SCCP_CONFIG_NOUPDATENEEDED : Nat := 0

def SCCP_CONFIG_NEEDDEVICERESET : Nat := 4

/-- enum sccp_config_segment_t. -/
inductive sccp_config_segment_t where
  | SCCP_CONFIG_GLOBAL_SEGMENT
  | SCCP_CONFIG_DEVICE_SEGMENT
  | SCCP_CONFIG_LINE_SEGMENT
  | SCCP_CONFIG_SOFTKEY_SEGMENT
deriving DecidableEq, Repr

export sccp_config_segment_t (SCCP_CONFIG_GLOBAL_SEGMENT SCCP_CONFIG_DEVICE_SEGMENT SCCP_CONFIG_LINE_SEGMENT SCCP_CONFIG_SOFTKEY_SEGMENT)

/-! ### Constants from common.h -/

/-- common.h line 496. -/
def StationMaxSoftKeySetDefinition : Nat := 16

/-- Modelled from the spec: sccp_labels.h is not part of src/; the spec calls
for a defined empty-label sentinel id, taken as the zero code so that a
calloc-zeroed softkey buffer consists of empty labels. -/
def SKINNY_LBL_EMPTY : Nat := 0

def SCCP_CHANNELSTATE_OFFHOOK : Int := 1

def SCCP_CHANNELSTATE_RINGOUT : Int := 3

def SCCP_CHANNELSTATE_DIALING : Int := 20

def SCCP_CHANNELSTATE_PROGRESS : Int := 21

def SKINNY_LAMP_OFF : Int := 1

def SKINNY_LAMP_ON : Int := 2

def SKINNY_LAMP_WINK : Int := 3

def SKINNY_LAMP_FLASH : Int := 4

def SKINNY_LAMP_BLINK : Int := 5

def SCCP_DTMFMODE_INBAND : Int := 0

def SCCP_DTMFMODE_OUTOFBAND : Int := 1

def SCCP_DNDMODE_OFF : Int := 0

def SCCP_DNDMODE_REJECT : Int := 1

def SCCP_DNDMODE_SILENT : Int := 2

def SCCP_DNDMODE_USERDEFINED : Int := 3

def SCCP_BLINDTRANSFER_RING : Int := 0

def SCCP_BLINDTRANSFER_MOH : Int := 1

def SKINNY_DEVICETYPE_CISCO7914 : Int := 124

def SKINNY_DEVICETYPE_CISCO7915 : Int := 228

def SKINNY_DEVICETYPE_CISCO7916 : Int := 230

/-- Modelled from the spec: the call answer order enum is declared outside
src/; oldest-first and last-first are the two declared orders. -/
def ANSWER_OLDEST_FIRST : Int := 0

def ANSWER_LAST_FIRST : Int := 1

/-- IPTOS_* constants of ip.h (external system header). -/
def IPTOS_LOWDELAY : Int := 16

def IPTOS_THROUGHPUT : Int := 8

def IPTOS_RELIABILITY : Int := 4

def IPTOS_MINCOST : Int := 2

/-- Modelled from the spec: the struct definitions carrying the declared
string field sizes are not part of src/; every string field is modelled with
one generous declared size, consumed only by copy-with-truncation. -/
def modelledFieldSize : Nat := 256

/-! ### Button configuration (device button list entries)

button_type_t and struct sccp_buttonconfig are declared outside src/.
Modelled from the spec: four button kinds (line, speeddial, service-URL,
feature) plus an empty tombstone kind; the tombstone is the zero enumerator so
that a calloc-zeroed entry is empty.  The C union over the per-kind fields is
flattened into one record (no claim exercises overlapping kinds). -/

inductive button_type_t where
  | EMPTY
  | LINE
  | SPEEDDIAL
  | SERVICE
  | FEATURE
deriving DecidableEq, Repr

export button_type_t (EMPTY LINE SPEEDDIAL SERVICE FEATURE)

structure sccp_buttonconfig_t where
  index : Int
  btype : button_type_t
  pendingDelete : Bool
  pendingUpdate : Bool
  label : String
  lineName : String
  subscriptionIdNumber : String
  subscriptionIdName : String
  subscriptionIdAux : String
  lineOptions : String
  speeddialExt : String
  speeddialHint : String
  serviceUrl : String
  featureId : Int
  featureOptions : String
deriving DecidableEq, Repr

/-- A calloc-zeroed button entry at an index. -/
def emptyButton (index : Int) : sccp_buttonconfig_t :=
  ⟨index, EMPTY, false, false, "", "", "", "", "", "", "", "", "", 0, ""⟩

/-- struct composedId (the decomposition of a composed line button name). -/
structure composedId where
  mainId : String
  subscriptionIdNumber : String
  subscriptionIdName : String
  subscriptionIdAux : String
deriving DecidableEq, Repr

/-- Modelled from the spec: sccp_parseComposedId lives in sccp_utils.c, which
is not part of src/.  The spec only needs the composed button name decomposed
deterministically into a main line name plus subscription id fields; modelled
as a split at the first at-sign, the remainder becoming the subscription
number. -/
def sccp_parseComposedId (labelString : String) (_maxLength : Nat) : composedId :=
  match splitOnChar '@' labelString with
  | [] => ⟨"", "", "", ""⟩
  | [m] => ⟨m, "", "", ""⟩
  | m :: rest => ⟨m, String.intercalate "@" rest, "", ""⟩

/-- Modelled from the spec: sccp_featureStr2featureID lives outside src/; a
deterministic total map from feature option strings to numeric feature ids,
with 0 for unknown strings. -/
def sccp_featureStr2featureID : Option String → Int
  | none => 0
  | some s =>
    if strcaseEq s "monitor" then 1
    else if strcaseEq s "devstate" then 2
    else if strcaseEq s "hold" then 3
    else 0

/-! ### Live object storage -/

inductive FieldValue where
  | strF (s : String)
  | strptrF (s : Option String)
  | intF (n : Int)
  | boolF (b : Bool)
  | charF (c : Char)
  | sockaddrF (addr : Option String) (portNum : Int)
  | featureF (enabled : Bool) (status : Int)
  | permithostsF (hosts : List String)
  | addonsF (types : List Int)
  | variablesF (vars : List String)
  | buttonsF (buttons : List sccp_buttonconfig_t)
  | haF (entries : List (String × String))
  | mailboxesF (boxes : List (String × String))
  | codecPrefF (prefs : List (Bool × String))
  | groupF (g : Nat)
  | debugF (d : Nat)
deriving DecidableEq, Repr

open FieldValue

/-- A live configurable object: its identifier, reload flags, and typed
fields addressed by C field name. -/
structure SCCPObject where
  id : String
  pendingDelete : Bool
  pendingUpdate : Bool
  fields : List (String × FieldValue)
deriving DecidableEq, Repr

def readField (obj : SCCPObject) (f : String) : Option FieldValue :=
  (obj.fields.find? (fun p => p.1 == f)).map Prod.snd

def setFieldAux (f : String) (v : FieldValue) : List (String × FieldValue) → List (String × FieldValue)
  | [] => [(f, v)]
  | (g, w) :: rest => if g == f then (f, v) :: rest else (g, w) :: setFieldAux f v rest

def writeField (obj : SCCPObject) (f : String) (v : FieldValue) : SCCPObject :=
  { obj with fields := setFieldAux f v obj.fields }

/-! ### Config source (external text config supplier)

The asterisk key/value store is an external collaborator; a config is an
ordered list of sections, each an ordered list of (name, value) pairs.
pbx_variable_retrieve returns the first matching value, matching section and
variable names case-insensitively. -/

def ast_config := List (String × List (String × String))

def pbx_variable_retrieve (cfg : ast_config) (category : String) (name : String) : Option String :=
  match cfg.find? (fun s => strcaseEq s.1 category) with
  | none => none
  | some sec => (sec.2.find? (fun p => strcaseEq p.1 name)).map Prod.snd

/-! ### Field readers (C reinterprets the destination pointer per data type;
on a kind mismatch the readers return the zero value of the expected kind). -/

def asStr : Option FieldValue → String
  | some (strF s) => s
  | _ => ""

def asStrPtr : Option FieldValue → Option String
  | some (strptrF s) => s
  | _ => none

def asInt : Option FieldValue → Int
  | some (intF n) => n
  | _ => 0

def asBool : Option FieldValue → Bool
  | some (boolF b) => b
  | _ => false

def asChar : Option FieldValue → Char
  | some (charF c) => c
  | _ => Char.ofNat 0

/-! ### Converter functions (sccp_config_parse_*)

Each C converter has signature
`(void *dest, size_t size, const char *value, sccp_config_segment_t segment)`
returning a value-changed code; modelled on the stored field value. -/

/-- Modelled from the spec: sccp_parse_debugline lives in sccp_utils.c, which
is not part of src/ (a parser of console debug categories); modelled as a
deterministic total stub, not exercised by any claim. -/
def sccp_parse_debugline (value : String) : Nat :=
  if strcaseEq value "none" || value == "0" then 0
  else if strcaseEq value "all" then 4294967295
  else 1

def sccp_config_parse_debug (dest : Option FieldValue) (_size : Nat) (value : String)
    (_segment : sccp_config_segment_t) : FieldValue × Nat :=
  let debug_prev := match dest with | some (debugF d) => d | _ => 0
  let debug_new := sccp_parse_debugline value
  if debug_new != debug_prev then (debugF debug_new, SCCP_CONFIG_CHANGE_CHANGED)
  else (debugF debug_prev, SCCP_CONFIG_CHANGE_NOCHANGE)

/-- Modelled from the spec: pbx_gethostbyname is an external resolver; name
resolution is modelled as succeeding exactly on nonempty values, resolving a
value to itself. -/
def sccp_config_parse_ipaddress (dest : Option FieldValue) (_size : Nat) (value : String)
    (_segment : sccp_config_segment_t) : FieldValue × Nat :=
  let prev := match dest with | some (sockaddrF a p) => (a, p) | _ => (none, 0)
  if value.isEmpty then
    (sockaddrF prev.1 prev.2, SCCP_CONFIG_CHANGE_INVALIDVALUE)
  else if (prev.1.getD "") != value then
    (sockaddrF (some value) prev.2, SCCP_CONFIG_CHANGE_CHANGED)
  else
    (sockaddrF prev.1 prev.2, SCCP_CONFIG_CHANGE_NOCHANGE)

def sccp_config_parse_port (dest : Option FieldValue) (_size : Nat) (value : String)
    (_segment : sccp_config_segment_t) : FieldValue × Nat :=
  let prev := match dest with | some (sockaddrF a p) => (a, p) | _ => (none, 0)
  match sscanf_i value with
  | some new_port =>
    if prev.2 != new_port then (sockaddrF prev.1 new_port, SCCP_CONFIG_CHANGE_CHANGED)
    else (sockaddrF prev.1 prev.2, SCCP_CONFIG_CHANGE_NOCHANGE)
  | none => (sockaddrF prev.1 prev.2, SCCP_CONFIG_CHANGE_INVALIDVALUE)

def sccp_config_parse_blindtransferindication (dest : Option FieldValue) (_size : Nat)
    (value : String) (_segment : sccp_config_segment_t) : FieldValue × Nat :=
  let prev := asInt dest
  let result : Int × Nat :=
    if strcaseEq value "moh" then (SCCP_BLINDTRANSFER_MOH, SCCP_CONFIG_CHANGE_NOCHANGE)
    else if strcaseEq value "ring" then (SCCP_BLINDTRANSFER_RING, SCCP_CONFIG_CHANGE_NOCHANGE)
    else (prev, SCCP_CONFIG_CHANGE_INVALIDVALUE)
  if prev != result.1 then (intF result.1, SCCP_CONFIG_CHANGE_CHANGED)
  else (intF prev, result.2)

def sccp_config_parse_callanswerorder (dest : Option FieldValue) (_size : Nat) (value : String)
    (_segment : sccp_config_segment_t) : FieldValue × Nat :=
  let prev := asInt dest
  let new_value : Option Int :=
    if strcaseEq value "oldestfirst" then some ANSWER_OLDEST_FIRST
    else if strcaseEq value "lastfirst" then some ANSWER_LAST_FIRST
    else none
  match new_value with
  | none => (intF prev, SCCP_CONFIG_CHANGE_INVALIDVALUE)
  | some nv =>
    if prev != nv then (intF nv, SCCP_CONFIG_CHANGE_CHANGED)
    else (intF prev, SCCP_CONFIG_CHANGE_NOCHANGE)

/-- The C function compares the destination as a string but stores a strdup
pointer into it; the row using it is STRING-typed so the converter is never
dispatched, the store is modelled as a plain string store. -/
def sccp_config_parse_regcontext (dest : Option FieldValue) (_size : Nat) (value : String)
    (_segment : sccp_config_segment_t) : FieldValue × Nat :=
  let str := asStr dest
  if !strcaseEq str value then (strF value, SCCP_CONFIG_CHANGE_CHANGED)
  else (strF str, SCCP_CONFIG_CHANGE_NOCHANGE)

/-- Modelled from the spec: sccp_parse_allow_disallow lives in sccp_utils.c,
which is not part of src/; codec preference parsing is modelled as recording
the (allow, value) request and always succeeding, so the converter always
reports changed, matching the unconditional `1 == 1` branch in the source. -/
def sccp_config_parse_codec_preferences (dest : Option FieldValue) (_size : Nat) (value : String)
    (allow : Bool) (_segment : sccp_config_segment_t) : FieldValue × Nat :=
  let prefs := match dest with | some (codecPrefF p) => p | _ => []
  (codecPrefF (prefs ++ [(allow, value)]), SCCP_CONFIG_CHANGE_CHANGED)

def sccp_config_parse_allow_codec (dest : Option FieldValue) (size : Nat) (value : String)
    (segment : sccp_config_segment_t) : FieldValue × Nat :=
  sccp_config_parse_codec_preferences dest size value true segment

def sccp_config_parse_disallow_codec (dest : Option FieldValue) (size : Nat) (value : String)
    (segment : sccp_config_segment_t) : FieldValue × Nat :=
  sccp_config_parse_codec_preferences dest size value false segment

/-- sccp_append_ha (sccp_utils) is modelled as appending the (sense, value)
entry to the host access list. -/
def sccp_config_parse_permit (dest : Option FieldValue) (_size : Nat) (value : String)
    (_segment : sccp_config_segment_t) : FieldValue × Nat :=
  let ha := match dest with | some (haF h) => h | _ => []
  let ha :=
    if strcaseEq value "internal" then
      ha ++ [("permit", "10.0.0.0/255.0.0.0"), ("permit", "172.16.0.0/255.224.0.0"),
             ("permit", "192.168.1.0/255.255.255.0")]
    else ha ++ [("permit", value)]
  (haF ha, SCCP_CONFIG_CHANGE_NOCHANGE)

def sccp_config_parse_deny (dest : Option FieldValue) (_size : Nat) (value : String)
    (_segment : sccp_config_segment_t) : FieldValue × Nat :=
  let ha := match dest with | some (haF h) => h | _ => []
  (haF (ha ++ [("deny", value)]), SCCP_CONFIG_CHANGE_NOCHANGE)

/-- pbx_str2tos is an external asterisk helper; modelled as never matching, so
numeric and keyword forms below decide the value (the claims use numeric
forms only). -/
def sccp_config_parse_tos (dest : Option FieldValue) (_size : Nat) (value : String)
    (_segment : sccp_config_segment_t) : FieldValue × Nat :=
  let prev := asInt dest
  let parsed : Int × Nat :=
    match sscanf_i value with
    | some t => ((t % 256 + 256) % 256, SCCP_CONFIG_CHANGE_NOCHANGE)
    | none =>
      if strcaseEq value "lowdelay" then (IPTOS_LOWDELAY, SCCP_CONFIG_CHANGE_NOCHANGE)
      else if strcaseEq value "throughput" then (IPTOS_THROUGHPUT, SCCP_CONFIG_CHANGE_NOCHANGE)
      else if strcaseEq value "reliability" then (IPTOS_RELIABILITY, SCCP_CONFIG_CHANGE_NOCHANGE)
      else if strcaseEq value "mincost" then (IPTOS_MINCOST, SCCP_CONFIG_CHANGE_NOCHANGE)
      else if strcaseEq value "none" then (0, SCCP_CONFIG_CHANGE_NOCHANGE)
      else (104, SCCP_CONFIG_CHANGE_INVALIDVALUE)
  if prev != parsed.1 then (intF parsed.1, SCCP_CONFIG_CHANGE_CHANGED)
  else (intF prev, parsed.2)

/-- When sscanf fails the C code compares against an uninitialized local;
modelled as comparing against the stored value (no change). -/
def sccp_config_parse_cos (dest : Option FieldValue) (_size : Nat) (value : String)
    (_segment : sccp_config_segment_t) : FieldValue × Nat :=
  let prev := asInt dest
  match sscanf_d value with
  | some c =>
    if c < 0 ∨ c > 7 then (intF prev, SCCP_CONFIG_CHANGE_INVALIDVALUE)
    else if prev != c then (intF c, SCCP_CONFIG_CHANGE_CHANGED)
    else (intF prev, SCCP_CONFIG_CHANGE_NOCHANGE)
  | none => (intF prev, SCCP_CONFIG_CHANGE_NOCHANGE)

/-- pbx_cdr_amaflags2int is an external asterisk helper; modelled with the
asterisk amaflag names, unknown names mapping to -1. -/
def pbx_cdr_amaflags2int (value : String) : Int :=
  if strcaseEq value "default" then 0
  else if strcaseEq value "omit" then 1
  else if strcaseEq value "billing" then 2
  else if strcaseEq value "documentation" then 3
  else -1

def sccp_config_parse_amaflags (dest : Option FieldValue) (_size : Nat) (value : String)
    (_segment : sccp_config_segment_t) : FieldValue × Nat :=
  let prev := asInt dest
  let amaflags := pbx_cdr_amaflags2int value
  if amaflags < 0 then (intF prev, SCCP_CONFIG_CHANGE_INVALIDVALUE)
  else if prev != amaflags then (intF amaflags, SCCP_CONFIG_CHANGE_CHANGED)
  else (intF prev, SCCP_CONFIG_CHANGE_NOCHANGE)

def sccp_config_parse_smallint (dest : Option FieldValue) (_size : Nat) (value : String)
    (_segment : sccp_config_segment_t) : FieldValue × Nat :=
  let prev := asInt dest
  match sscanf_i value with
  | some new_value =>
    if 0 ≤ new_value ∧ new_value ≤ 255 then
      if prev != new_value then (intF new_value, SCCP_CONFIG_CHANGE_CHANGED)
      else (intF prev, SCCP_CONFIG_CHANGE_NOCHANGE)
    else (intF prev, SCCP_CONFIG_CHANGE_INVALIDVALUE)
  | none => (intF prev, SCCP_CONFIG_CHANGE_INVALIDVALUE)

def sccp_config_parse_secondaryDialtoneDigits (dest : Option FieldValue) (_size : Nat)
    (value : String) (_segment : sccp_config_segment_t) : FieldValue × Nat :=
  let str := asStr dest
  if value.length ≤ 9 then
    if !strcaseEq str value then (strF (pbx_copy_string value 9), SCCP_CONFIG_CHANGE_CHANGED)
    else (strF str, SCCP_CONFIG_CHANGE_NOCHANGE)
  else (strF str, SCCP_CONFIG_CHANGE_INVALIDVALUE)

/-- sccp_create_variable (external) never fails in the model; the new
variable is prepended, and the converter starts from the changed code. -/
def sccp_config_parse_variables (dest : Option FieldValue) (_size : Nat) (value : String)
    (_segment : sccp_config_segment_t) : FieldValue × Nat :=
  let vars := match dest with | some (variablesF v) => v | _ => []
  (variablesF (value :: vars), SCCP_CONFIG_CHANGE_CHANGED)

/-- One piece of a group list: a range `a-b`, a single number, an all-blank
piece (where C sscanf yields EOF and the stale previous numbers are reused)
or garbage (skipped). -/
inductive GroupPiece where
  | range (a b : Int)
  | single (a : Int)
  | blank
  | garbage
deriving DecidableEq, Repr

def parseGroupPiece (piece : String) : GroupPiece :=
  let cs := piece.data.dropWhile (fun c => c == ' ' || c == '\t' || c == '\n' || c == '\r')
  if cs.isEmpty then GroupPiece.blank
  else
    match sscanf_d piece with
    | none => GroupPiece.garbage
    | some a =>
      let signLen : Nat := if cs.head? == some '-' || cs.head? == some '+' then 1 else 0
      let afterFirst := (cs.drop signLen).dropWhile Char.isDigit
      match afterFirst with
      | '-' :: rest =>
        match readDigits 10 rest with
        | some b => GroupPiece.range a b
        | none => GroupPiece.single a
      | _ => GroupPiece.single a

def groupBits (start finish : Int) : Nat :=
  (List.range 64).foldl
    (fun (g : Nat) (x : Nat) =>
      if start ≤ (x : Int) ∧ (x : Int) ≤ finish then g ||| ((1 : Nat) <<< x) else g) 0

def sccp_config_parse_group (dest : Option FieldValue) (_size : Nat) (value : String)
    (_segment : sccp_config_segment_t) : FieldValue × Nat :=
  let prev := match dest with | some (groupF g) => g | _ => 0
  let step : (Nat × Int × Int) → String → (Nat × Int × Int) := fun st piece =>
    match parseGroupPiece piece with
    | GroupPiece.range a b => (st.1 ||| groupBits a b, a, b)
    | GroupPiece.single a => (st.1 ||| groupBits a a, a, a)
    | GroupPiece.blank => (st.1 ||| groupBits st.2.1 st.2.1, st.2.1, st.2.1)
    | GroupPiece.garbage => st
  let group :=
    if value.isEmpty then 0
    else ((splitOnChar ',' value).foldl step (0, 0, 0)).1
  if prev != group then (groupF group, SCCP_CONFIG_CHANGE_CHANGED)
  else (groupF prev, SCCP_CONFIG_CHANGE_NOCHANGE)

/-- pbx_context_find only feeds a warning log and is dropped. -/
def sccp_config_parse_context (dest : Option FieldValue) (size : Nat) (value : String)
    (_segment : sccp_config_segment_t) : FieldValue × Nat :=
  let str := asStr dest
  if !strcaseEq str value then (strF (pbx_copy_string value size), SCCP_CONFIG_CHANGE_CHANGED)
  else (strF str, SCCP_CONFIG_CHANGE_NOCHANGE)

def sccp_config_parse_dnd (dest : Option FieldValue) (_size : Nat) (value : String)
    (_segment : sccp_config_segment_t) : FieldValue × Nat :=
  let prev := asInt dest
  let dndmode : Int :=
    if strcaseEq value "reject" then SCCP_DNDMODE_REJECT
    else if strcaseEq value "silent" then SCCP_DNDMODE_SILENT
    else if strcaseEq value "user" then SCCP_DNDMODE_USERDEFINED
    else if value.isEmpty then SCCP_DNDMODE_OFF
    else if sccp_true (some value) then 1 else 0
  if prev != dndmode then (intF dndmode, SCCP_CONFIG_CHANGE_CHANGED)
  else (intF prev, SCCP_CONFIG_CHANGE_NOCHANGE)

def sccp_config_parse_earlyrtp (dest : Option FieldValue) (_size : Nat) (value : String)
    (_segment : sccp_config_segment_t) : FieldValue × Nat :=
  let prev := asInt dest
  let parsed : Int × Nat :=
    if strcaseEq value "none" then (0, SCCP_CONFIG_CHANGE_NOCHANGE)
    else if strcaseEq value "offhook" then (SCCP_CHANNELSTATE_OFFHOOK, SCCP_CONFIG_CHANGE_NOCHANGE)
    else if strcaseEq value "dial" then (SCCP_CHANNELSTATE_DIALING, SCCP_CONFIG_CHANGE_NOCHANGE)
    else if strcaseEq value "ringout" then (SCCP_CHANNELSTATE_RINGOUT, SCCP_CONFIG_CHANGE_NOCHANGE)
    else if strcaseEq value "progress" then (SCCP_CHANNELSTATE_PROGRESS, SCCP_CONFIG_CHANGE_NOCHANGE)
    else (0, SCCP_CONFIG_CHANGE_INVALIDVALUE)
  if prev != parsed.1 then (intF parsed.1, SCCP_CONFIG_CHANGE_CHANGED)
  else (intF prev, parsed.2)

def sccp_config_parse_dtmfmode (dest : Option FieldValue) (_size : Nat) (value : String)
    (_segment : sccp_config_segment_t) : FieldValue × Nat :=
  let prev := asInt dest
  let parsed : Int × Nat :=
    if strcaseEq value "outofband" then (SCCP_DTMFMODE_OUTOFBAND, SCCP_CONFIG_CHANGE_NOCHANGE)
    else if strcaseEq value "inband" then (SCCP_DTMFMODE_INBAND, SCCP_CONFIG_CHANGE_NOCHANGE)
    else (0, SCCP_CONFIG_CHANGE_INVALIDVALUE)
  if prev != parsed.1 then (intF parsed.1, SCCP_CONFIG_CHANGE_CHANGED)
  else (intF prev, parsed.2)

def sccp_config_parse_mwilamp (dest : Option FieldValue) (_size : Nat) (value : String)
    (_segment : sccp_config_segment_t) : FieldValue × Nat :=
  let prev := asInt dest
  let parsed : Int × Nat :=
    if strcaseEq value "off" then (SKINNY_LAMP_OFF, SCCP_CONFIG_CHANGE_NOCHANGE)
    else if strcaseEq value "on" then (SKINNY_LAMP_ON, SCCP_CONFIG_CHANGE_NOCHANGE)
    else if strcaseEq value "wink" then (SKINNY_LAMP_WINK, SCCP_CONFIG_CHANGE_NOCHANGE)
    else if strcaseEq value "flash" then (SKINNY_LAMP_FLASH, SCCP_CONFIG_CHANGE_NOCHANGE)
    else if strcaseEq value "blink" then (SKINNY_LAMP_BLINK, SCCP_CONFIG_CHANGE_NOCHANGE)
    else (0, SCCP_CONFIG_CHANGE_INVALIDVALUE)
  if prev != parsed.1 then (intF parsed.1, SCCP_CONFIG_CHANGE_CHANGED)
  else (intF prev, parsed.2)

/-- The mailbox converter deduplicates on the part before the at-sign and
returns changed unconditionally. -/
def sccp_config_parse_mailbox (dest : Option FieldValue) (_size : Nat) (value : String)
    (_segment : sccp_config_segment_t) : FieldValue × Nat :=
  let boxes := match dest with | some (mailboxesF b) => b | _ => []
  let parts := splitOnChar '@' value
  let mbox := (parts.head?).getD ""
  let context := if parts.length ≥ 2 then String.intercalate "@" (parts.drop 1) else ""
  let mailbox_exists := boxes.any (fun b => b.1 == mbox)
  let boxes :=
    if !mailbox_exists ∧ !mbox.isEmpty then boxes ++ [(mbox, context)] else boxes
  (mailboxesF boxes, SCCP_CONFIG_CHANGE_CHANGED)

/-- sccp_malloc does not initialize the hostname of the fresh list entry and
the source compares that fresh entry against the supplied value.  Modelled
from the spec: a reload re-inserts a fresh entry for every supplied
permithost value (list-valued fields accumulate), so the fresh name is taken
empty and any nonempty value is inserted and reported changed. -/
def sccp_config_parse_permithosts (dest : Option FieldValue) (_size : Nat) (value : String)
    (_segment : sccp_config_segment_t) : FieldValue × Nat :=
  let hosts := match dest with | some (permithostsF h) => h | _ => []
  if "" != value then
    (permithostsF (pbx_copy_string value modelledFieldSize :: hosts), SCCP_CONFIG_CHANGE_CHANGED)
  else
    (permithostsF hosts, SCCP_CONFIG_CHANGE_NOCHANGE)

def sccp_config_parse_addons (dest : Option FieldValue) (_size : Nat) (value : String)
    (_segment : sccp_config_segment_t) : FieldValue × Nat :=
  let addons := match dest with | some (addonsF a) => a | _ => []
  let addon_type : Option Int :=
    if strcaseEq value "7914" then some SKINNY_DEVICETYPE_CISCO7914
    else if strcaseEq value "7915" then some SKINNY_DEVICETYPE_CISCO7915
    else if strcaseEq value "7916" then some SKINNY_DEVICETYPE_CISCO7916
    else none
  match addon_type with
  | none => (addonsF addons, SCCP_CONFIG_CHANGE_INVALIDVALUE)
  | some t => (addonsF (t :: addons), SCCP_CONFIG_CHANGE_CHANGED)

def sccp_config_parse_privacyFeature (dest : Option FieldValue) (_size : Nat) (value : String)
    (_segment : sccp_config_segment_t) : FieldValue × Nat :=
  let prev := match dest with | some (featureF e s) => (e, s) | _ => (false, 0)
  let newFeature : Bool × Int :=
    if strcaseEq value "full" then (true, 4294967295)
    else (sccp_true (some value), 0)
  if prev.2 != newFeature.2 ∨ prev.1 != newFeature.1 then
    (featureF newFeature.1 newFeature.2, SCCP_CONFIG_CHANGE_CHANGED)
  else
    (featureF prev.1 prev.2, SCCP_CONFIG_CHANGE_NOCHANGE)

/-! ### sccp_config_addButton -/

/-- Add or merge a button into a device button list.  The traversal looks for
a pending-delete entry of the same type (and label, for non-tombstones) to
replace, but only when the requested index is 0; a negative index appends
after the highest traversed index; otherwise a fresh zeroed entry is appended.
Replacing an existing entry clears its pendingDelete, sets pendingUpdate and
starts from the changed classification; a faulty entry (empty name, or a
non-line button without options) is turned into an empty tombstone with the
invalid-value classification. -/
def sccp_config_addButton (buttonconfigList : List sccp_buttonconfig_t) (index : Int)
    (btype : button_type_t) (name : String) (options : Option String) (args : Option String) :
    List sccp_buttonconfig_t × Nat :=
  let foundIdx : Option Nat :=
    if index == 0 then
      buttonconfigList.findIdx? (fun c => c.pendingDelete && c.btype == btype &&
        (c.btype == EMPTY || c.label == name))
    else none
  let highest_index : Int := ((buttonconfigList.getLast?).map (fun c => c.index)).getD 0
  let index1 : Int := if foundIdx.isNone ∧ index < 0 then highest_index + 1 else index
  let workList : List sccp_buttonconfig_t :=
    match foundIdx with
    | some i => buttonconfigList.set i
        (match buttonconfigList[i]? with
         | some c => { c with pendingDelete := false, pendingUpdate := true }
         | none => emptyButton index1)
    | none => buttonconfigList ++ [emptyButton index1]
  let pos : Nat := match foundIdx with | some i => i | none => buttonconfigList.length
  let changes0 : Nat :=
    if foundIdx.isNone then SCCP_CONFIG_NOUPDATENEEDED else SCCP_CONFIG_CHANGE_CHANGED
  let faulty : Bool := name.isEmpty || (btype != LINE && options.isNone)
  let btype1 := if faulty then EMPTY else btype
  let changes1 := if faulty then SCCP_CONFIG_CHANGE_INVALIDVALUE else changes0
  let cur := (workList[pos]?).getD (emptyButton index1)
  let result : sccp_buttonconfig_t × Nat :=
    match btype1 with
    | LINE =>
      let cid := sccp_parseComposedId name 80
      if cur.btype == LINE && cur.label == name && cur.lineName == cid.mainId &&
         strcaseEq cur.subscriptionIdNumber cid.subscriptionIdNumber &&
         cur.subscriptionIdName == cid.subscriptionIdName &&
         cur.subscriptionIdAux == cid.subscriptionIdAux then
        -- both arms of the options comparison set no-change and break,
        -- so a differing options sub-field is neither stored nor reported
        (cur, SCCP_CONFIG_CHANGE_NOCHANGE)
      else
        ({ cur with
            btype := LINE,
            label := pbx_copy_string name modelledFieldSize,
            lineName := pbx_copy_string cid.mainId modelledFieldSize,
            subscriptionIdNumber := pbx_copy_string cid.subscriptionIdNumber modelledFieldSize,
            subscriptionIdName := pbx_copy_string cid.subscriptionIdName modelledFieldSize,
            subscriptionIdAux := pbx_copy_string cid.subscriptionIdAux modelledFieldSize,
            lineOptions :=
              match options with
              | some o => pbx_copy_string o modelledFieldSize
              | none => cur.lineOptions }, changes1)
    | SPEEDDIAL =>
      let opts := options.getD ""
      if cur.btype == SPEEDDIAL && cur.label == name && cur.speeddialExt == opts &&
         (args.isNone || cur.speeddialHint == args.getD "") then
        (cur, SCCP_CONFIG_CHANGE_NOCHANGE)
      else
        ({ cur with
            btype := SPEEDDIAL,
            label := pbx_copy_string name modelledFieldSize,
            speeddialExt := pbx_copy_string opts modelledFieldSize,
            speeddialHint :=
              match args with
              | some a => pbx_copy_string a modelledFieldSize
              | none => cur.speeddialHint }, changes1)
    | SERVICE =>
      let opts := options.getD ""
      if cur.btype == SERVICE && cur.label == name && cur.serviceUrl == opts then
        (cur, SCCP_CONFIG_CHANGE_NOCHANGE)
      else
        ({ cur with
            btype := SERVICE,
            label := pbx_copy_string name modelledFieldSize,
            serviceUrl := pbx_copy_string opts modelledFieldSize }, changes1)
    | FEATURE =>
      if cur.btype == FEATURE && cur.label == name &&
         cur.featureId == sccp_featureStr2featureID options &&
         (args.isNone || cur.featureOptions == args.getD "") then
        (cur, SCCP_CONFIG_CHANGE_NOCHANGE)
      else
        ({ cur with
            btype := FEATURE,
            label := pbx_copy_string name modelledFieldSize,
            featureId := sccp_featureStr2featureID options,
            featureOptions :=
              match args with
              | some a => pbx_copy_string a modelledFieldSize
              | none => cur.featureOptions }, changes1)
    | EMPTY =>
      if cur.btype == EMPTY then (cur, SCCP_CONFIG_CHANGE_NOCHANGE)
      else ({ cur with btype := EMPTY }, changes1)
  (workList.set pos result.1, result.2)

/-- Modelled from the spec: the sccp_buttontypes text table is declared
outside src/; the spec names the four button kinds plus the empty kind. -/
def sccp_buttontypes : List (String × button_type_t) :=
  [("line", LINE), ("speeddial", SPEEDDIAL), ("service", SERVICE),
   ("feature", FEATURE), ("empty", EMPTY)]

def sccp_config_parse_button (dest : Option FieldValue) (_size : Nat) (value : String)
    (_segment : sccp_config_segment_t) : FieldValue × Nat :=
  let buttons := match dest with | some (buttonsF b) => b | _ => []
  let k_button := pbx_copy_string value 256
  let parts := splitOnChar ',' k_button
  let buttonType := (parts.head?).getD ""
  let buttonName := parts[1]?
  let buttonOption := parts[2]?
  let buttonArgs :=
    if parts.length ≥ 4 then some (String.intercalate "," (parts.drop 3)) else none
  match sccp_buttontypes.find? (fun bt => strcaseEq buttonType bt.1) with
  | none => (buttonsF buttons, SCCP_CONFIG_CHANGE_INVALIDVALUE)
  | some bt =>
    let r := sccp_config_addButton buttons 0 bt.2
      (match buttonName with | some n => pbx_strip n | none => buttonType)
      (buttonOption.map pbx_strip) (buttonArgs.map pbx_strip)
    (buttonsF r.1, r.2)

/-! ### Converter references for the option tables -/

inductive ConverterRef where
  | debugC | ipaddressC | allowCodecC | disallowCodecC | denyC | permitC | tosC | cosC
  | amaflagsC | smallintC | secondaryDialtoneDigitsC | variablesC | groupC | contextC
  | dndC | earlyrtpC | dtmfmodeC | mwilampC | mailboxC | permithostsC | addonsC
  | privacyFeatureC | buttonC | blindtransferindicationC | callanswerorderC | regcontextC
deriving DecidableEq, Repr

def evalConverter (c : ConverterRef) (dest : Option FieldValue) (size : Nat) (value : String)
    (segment : sccp_config_segment_t) : FieldValue × Nat :=
  match c with
  | ConverterRef.debugC => sccp_config_parse_debug dest size value segment
  | ConverterRef.ipaddressC => sccp_config_parse_ipaddress dest size value segment
  | ConverterRef.allowCodecC => sccp_config_parse_allow_codec dest size value segment
  | ConverterRef.disallowCodecC => sccp_config_parse_disallow_codec dest size value segment
  | ConverterRef.denyC => sccp_config_parse_deny dest size value segment
  | ConverterRef.permitC => sccp_config_parse_permit dest size value segment
  | ConverterRef.tosC => sccp_config_parse_tos dest size value segment
  | ConverterRef.cosC => sccp_config_parse_cos dest size value segment
  | ConverterRef.amaflagsC => sccp_config_parse_amaflags dest size value segment
  | ConverterRef.smallintC => sccp_config_parse_smallint dest size value segment
  | ConverterRef.secondaryDialtoneDigitsC =>
      sccp_config_parse_secondaryDialtoneDigits dest size value segment
  | ConverterRef.variablesC => sccp_config_parse_variables dest size value segment
  | ConverterRef.groupC => sccp_config_parse_group dest size value segment
  | ConverterRef.contextC => sccp_config_parse_context dest size value segment
  | ConverterRef.dndC => sccp_config_parse_dnd dest size value segment
  | ConverterRef.earlyrtpC => sccp_config_parse_earlyrtp dest size value segment
  | ConverterRef.dtmfmodeC => sccp_config_parse_dtmfmode dest size value segment
  | ConverterRef.mwilampC => sccp_config_parse_mwilamp dest size value segment
  | ConverterRef.mailboxC => sccp_config_parse_mailbox dest size value segment
  | ConverterRef.permithostsC => sccp_config_parse_permithosts dest size value segment
  | ConverterRef.addonsC => sccp_config_parse_addons dest size value segment
  | ConverterRef.privacyFeatureC => sccp_config_parse_privacyFeature dest size value segment
  | ConverterRef.buttonC => sccp_config_parse_button dest size value segment
  | ConverterRef.blindtransferindicationC =>
      sccp_config_parse_blindtransferindication dest size value segment
  | ConverterRef.callanswerorderC => sccp_config_parse_callanswerorder dest size value segment
  | ConverterRef.regcontextC => sccp_config_parse_regcontext dest size value segment

/-! ### Option table rows (struct SCCPConfigOption) -/

structure SCCPConfigOption where
  name : String
  offset : Option String
  size : Nat
  dataType : SCCPConfigOptionType
  flags : Nat
  change : Nat
  defaultValue : Option String
  converter_f : Option ConverterRef
deriving DecidableEq, Repr

/-- Shorthand for the modelled field size of the offset/size columns. -/
def fsz : Nat := modelledFieldSize

/-- List of SCCP Config Options for SCCP Globals (sccpGlobalConfigOptions).
Offsets are the G_OBJ_REF field names of struct sccp_global_vars. -/
def sccpGlobalConfigOptions : List SCCPConfigOption := [
  ⟨"servername", some "servername", fsz, SCCP_CONFIG_DATATYPE_STRING, SCCP_CONFIG_FLAG_NONE, SCCP_CONFIG_NOUPDATENEEDED, some "Asterisk", none⟩,
  ⟨"keepalive", some "keepalive", fsz, SCCP_CONFIG_DATATYPE_INT, SCCP_CONFIG_FLAG_NONE, SCCP_CONFIG_NEEDDEVICERESET, some "60", none⟩,
  ⟨"debug", some "debug", fsz, SCCP_CONFIG_DATATYPE_GENERIC, SCCP_CONFIG_FLAG_NONE, SCCP_CONFIG_NOUPDATENEEDED, some "core", some ConverterRef.debugC⟩,
  ⟨"context", some "context", fsz, SCCP_CONFIG_DATATYPE_STRING, SCCP_CONFIG_FLAG_NONE, SCCP_CONFIG_NEEDDEVICERESET, some "sccp", some ConverterRef.contextC⟩,
  ⟨"dateformat", some "dateformat", fsz, SCCP_CONFIG_DATATYPE_STRING, SCCP_CONFIG_FLAG_NONE, SCCP_CONFIG_NEEDDEVICERESET, some "D.M.Y", none⟩,
  ⟨"bindaddr", some "bindaddr", fsz, SCCP_CONFIG_DATATYPE_GENERIC, SCCP_CONFIG_FLAG_NONE, SCCP_CONFIG_NEEDDEVICERESET, some "0.0.0.0", some ConverterRef.ipaddressC⟩,
  ⟨"port", some "bindaddr", fsz, SCCP_CONFIG_DATATYPE_GENERIC, SCCP_CONFIG_FLAG_NONE, SCCP_CONFIG_NEEDDEVICERESET, some "2000", none⟩,
  ⟨"disallow", some "global_preferences", fsz, SCCP_CONFIG_DATATYPE_GENERIC, SCCP_CONFIG_FLAG_NONE, SCCP_CONFIG_NEEDDEVICERESET, some "", some ConverterRef.disallowCodecC⟩,
  ⟨"allow", some "global_preferences", fsz, SCCP_CONFIG_DATATYPE_GENERIC, SCCP_CONFIG_FLAG_NONE, SCCP_CONFIG_NEEDDEVICERESET, some "", some ConverterRef.allowCodecC⟩,
  ⟨"deny", some "ha", fsz, SCCP_CONFIG_DATATYPE_GENERIC, SCCP_CONFIG_FLAG_NONE, SCCP_CONFIG_NEEDDEVICERESET, some "0.0.0.0/0.0.0.0", some ConverterRef.denyC⟩,
  ⟨"permit", some "ha", fsz, SCCP_CONFIG_DATATYPE_GENERIC, SCCP_CONFIG_FLAG_NONE, SCCP_CONFIG_NEEDDEVICERESET, some "internal", some ConverterRef.permitC⟩,
  ⟨"quality_over_size", some "prefer_quality_over_size", fsz, SCCP_CONFIG_DATATYPE_BOOLEAN, SCCP_CONFIG_FLAG_NONE, SCCP_CONFIG_NOUPDATENEEDED, some "true", none⟩,
  ⟨"localnet", some "localaddr", fsz, SCCP_CONFIG_DATATYPE_GENERIC, SCCP_CONFIG_FLAG_NONE, SCCP_CONFIG_NEEDDEVICERESET, some " ", some ConverterRef.permitC⟩,
  ⟨"externip", some "externip", fsz, SCCP_CONFIG_DATATYPE_GENERIC, SCCP_CONFIG_FLAG_NONE, SCCP_CONFIG_NEEDDEVICERESET, some "", some ConverterRef.ipaddressC⟩,
  ⟨"externhost", some "externhost", fsz, SCCP_CONFIG_DATATYPE_STRING, SCCP_CONFIG_FLAG_NONE, SCCP_CONFIG_NEEDDEVICERESET, some "", none⟩,
  ⟨"externrefresh", some "externrefresh", fsz, SCCP_CONFIG_DATATYPE_GENERIC, SCCP_CONFIG_FLAG_NONE, SCCP_CONFIG_NEEDDEVICERESET, some "60", some ConverterRef.smallintC⟩,
  ⟨"firstdigittimeout", some "firstdigittimeout", fsz, SCCP_CONFIG_DATATYPE_GENERIC, SCCP_CONFIG_FLAG_NONE, SCCP_CONFIG_NOUPDATENEEDED, some "16", some ConverterRef.smallintC⟩,
  ⟨"digittimeout", some "digittimeout", fsz, SCCP_CONFIG_DATATYPE_GENERIC, SCCP_CONFIG_FLAG_NONE, SCCP_CONFIG_NOUPDATENEEDED, some "8", some ConverterRef.smallintC⟩,
  ⟨"digittimeoutchar", some "digittimeoutchar", fsz, SCCP_CONFIG_DATATYPE_CHAR, SCCP_CONFIG_FLAG_NONE, SCCP_CONFIG_NOUPDATENEEDED, some "#", none⟩,
  ⟨"recorddigittimeoutchar", some "recorddigittimeoutchar", fsz, SCCP_CONFIG_DATATYPE_BOOLEAN, SCCP_CONFIG_FLAG_NONE, SCCP_CONFIG_NOUPDATENEEDED, some "false", none⟩,
  ⟨"simulate_enbloc", some "simulate_enbloc", fsz, SCCP_CONFIG_DATATYPE_BOOLEAN, SCCP_CONFIG_FLAG_NONE, SCCP_CONFIG_NOUPDATENEEDED, some "true", none⟩,
  ⟨"autoanswer_ring_time", some "autoanswer_ring_time", fsz, SCCP_CONFIG_DATATYPE_GENERIC, SCCP_CONFIG_FLAG_NONE, SCCP_CONFIG_NOUPDATENEEDED, some "1", some ConverterRef.smallintC⟩,
  ⟨"autoanswer_tone", some "autoanswer_tone", fsz, SCCP_CONFIG_DATATYPE_GENERIC, SCCP_CONFIG_FLAG_NONE, SCCP_CONFIG_NOUPDATENEEDED, some "0x32", some ConverterRef.smallintC⟩,
  ⟨"remotehangup_tone", some "remotehangup_tone", fsz, SCCP_CONFIG_DATATYPE_GENERIC, SCCP_CONFIG_FLAG_NONE, SCCP_CONFIG_NOUPDATENEEDED, some "0x32", some ConverterRef.smallintC⟩,
  ⟨"transfer_tone", some "transfer_tone", fsz, SCCP_CONFIG_DATATYPE_GENERIC, SCCP_CONFIG_FLAG_NONE, SCCP_CONFIG_NOUPDATENEEDED, some "0", some ConverterRef.smallintC⟩,
  ⟨"callwaiting_tone", some "callwaiting_tone", fsz, SCCP_CONFIG_DATATYPE_GENERIC, SCCP_CONFIG_FLAG_NONE, SCCP_CONFIG_NOUPDATENEEDED, some "0x2d", some ConverterRef.smallintC⟩,
  ⟨"musicclass", some "musicclass", fsz, SCCP_CONFIG_DATATYPE_STRING, SCCP_CONFIG_FLAG_NONE, SCCP_CONFIG_NOUPDATENEEDED, some "default", none⟩,
  ⟨"language", some "language", fsz, SCCP_CONFIG_DATATYPE_STRING, SCCP_CONFIG_FLAG_NONE, SCCP_CONFIG_NEEDDEVICERESET, some "en", none⟩,
  ⟨"callevents", some "callevents", fsz, SCCP_CONFIG_DATATYPE_BOOLEAN, SCCP_CONFIG_FLAG_NONE, SCCP_CONFIG_NOUPDATENEEDED, some "on ", none⟩,
  ⟨"accountcode", some "accountcode", fsz, SCCP_CONFIG_DATATYPE_STRING, SCCP_CONFIG_FLAG_NONE, SCCP_CONFIG_NOUPDATENEEDED, some "skinny", none⟩,
  ⟨"sccp_tos", some "sccp_tos", fsz, SCCP_CONFIG_DATATYPE_GENERIC, SCCP_CONFIG_FLAG_NONE, SCCP_CONFIG_NEEDDEVICERESET, some "0x68", some ConverterRef.tosC⟩,
  ⟨"sccp_cos", some "sccp_cos", fsz, SCCP_CONFIG_DATATYPE_GENERIC, SCCP_CONFIG_FLAG_NONE, SCCP_CONFIG_NEEDDEVICERESET, some "4", some ConverterRef.cosC⟩,
  ⟨"audio_tos", some "audio_tos", fsz, SCCP_CONFIG_DATATYPE_GENERIC, SCCP_CONFIG_FLAG_NONE, SCCP_CONFIG_NEEDDEVICERESET, some "0xB8", some ConverterRef.tosC⟩,
  ⟨"audio_cos", some "audio_cos", fsz, SCCP_CONFIG_DATATYPE_GENERIC, SCCP_CONFIG_FLAG_NONE, SCCP_CONFIG_NEEDDEVICERESET, some "6", some ConverterRef.cosC⟩,
  ⟨"video_tos", some "video_tos", fsz, SCCP_CONFIG_DATATYPE_GENERIC, SCCP_CONFIG_FLAG_NONE, SCCP_CONFIG_NEEDDEVICERESET, some "0x88", some ConverterRef.tosC⟩,
  ⟨"video_cos", some "video_cos", fsz, SCCP_CONFIG_DATATYPE_GENERIC, SCCP_CONFIG_FLAG_NONE, SCCP_CONFIG_NEEDDEVICERESET, some "5", some ConverterRef.cosC⟩,
  ⟨"echocancel", some "echocancel", fsz, SCCP_CONFIG_DATATYPE_BOOLEAN, SCCP_CONFIG_FLAG_NONE, SCCP_CONFIG_NOUPDATENEEDED, some "on", none⟩,
  ⟨"silencesuppression", some "silencesuppression", fsz, SCCP_CONFIG_DATATYPE_BOOLEAN, SCCP_CONFIG_FLAG_NONE, SCCP_CONFIG_NOUPDATENEEDED, some "off", none⟩,
  ⟨"trustphoneip", some "trustphoneip", fsz, SCCP_CONFIG_DATATYPE_BOOLEAN, SCCP_CONFIG_FLAG_NONE, SCCP_CONFIG_NOUPDATENEEDED, some "no", none⟩,
  ⟨"earlyrtp", some "earlyrtp", fsz, SCCP_CONFIG_DATATYPE_GENERIC, SCCP_CONFIG_FLAG_NONE, SCCP_CONFIG_NOUPDATENEEDED, some "progress", some ConverterRef.earlyrtpC⟩,
  ⟨"dnd", some "dndmode", fsz, SCCP_CONFIG_DATATYPE_GENERIC, SCCP_CONFIG_FLAG_NONE, SCCP_CONFIG_NOUPDATENEEDED, some "reject", some ConverterRef.dndC⟩,
  ⟨"private", some "privacy", fsz, SCCP_CONFIG_DATATYPE_BOOLEAN, SCCP_CONFIG_FLAG_NONE, SCCP_CONFIG_NOUPDATENEEDED, some "on", none⟩,
  ⟨"mwilamp", some "mwilamp", fsz, SCCP_CONFIG_DATATYPE_GENERIC, SCCP_CONFIG_FLAG_NONE, SCCP_CONFIG_NOUPDATENEEDED, some "on", some ConverterRef.mwilampC⟩,
  ⟨"mwioncall", some "mwioncall", fsz, SCCP_CONFIG_DATATYPE_BOOLEAN, SCCP_CONFIG_FLAG_NONE, SCCP_CONFIG_NOUPDATENEEDED, some "off", none⟩,
  ⟨"blindtransferindication", some "blindtransferindication", fsz, SCCP_CONFIG_DATATYPE_GENERIC, SCCP_CONFIG_FLAG_NONE, SCCP_CONFIG_NOUPDATENEEDED, some "ring", some ConverterRef.blindtransferindicationC⟩,
  ⟨"cfwdall", some "cfwdall", fsz, SCCP_CONFIG_DATATYPE_BOOLEAN, SCCP_CONFIG_FLAG_NONE, SCCP_CONFIG_NEEDDEVICERESET, some "on", none⟩,
  ⟨"cfwdbusy", some "cfwdbusy", fsz, SCCP_CONFIG_DATATYPE_BOOLEAN, SCCP_CONFIG_FLAG_NONE, SCCP_CONFIG_NEEDDEVICERESET, some "on", none⟩,
  ⟨"cfwdnoanswer", some "cfwdnoanswer", fsz, SCCP_CONFIG_DATATYPE_BOOLEAN, SCCP_CONFIG_FLAG_NONE, SCCP_CONFIG_NEEDDEVICERESET, some "on", none⟩,
  ⟨"nat", some "nat", fsz, SCCP_CONFIG_DATATYPE_BOOLEAN, SCCP_CONFIG_FLAG_NONE, SCCP_CONFIG_NEEDDEVICERESET, some "off", none⟩,
  ⟨"directrtp", some "directrtp", fsz, SCCP_CONFIG_DATATYPE_BOOLEAN, SCCP_CONFIG_FLAG_NONE, SCCP_CONFIG_NOUPDATENEEDED, some "off", none⟩,
  ⟨"allowoverlap", some "useoverlap", fsz, SCCP_CONFIG_DATATYPE_BOOLEAN, SCCP_CONFIG_FLAG_NONE, SCCP_CONFIG_NOUPDATENEEDED, some "off ", none⟩,
  ⟨"callgroup", some "callgroup", fsz, SCCP_CONFIG_DATATYPE_GENERIC, SCCP_CONFIG_FLAG_NONE, SCCP_CONFIG_NOUPDATENEEDED, some "", some ConverterRef.groupC⟩,
  ⟨"pickupgroup", some "pickupgroup", fsz, SCCP_CONFIG_DATATYPE_GENERIC, SCCP_CONFIG_FLAG_NONE, SCCP_CONFIG_NOUPDATENEEDED, some "", some ConverterRef.groupC⟩,
  ⟨"pickupmodeanswer", some "pickupmodeanswer", fsz, SCCP_CONFIG_DATATYPE_BOOLEAN, SCCP_CONFIG_FLAG_NONE, SCCP_CONFIG_NOUPDATENEEDED, some "", none⟩,
  ⟨"amaflags", some "amaflags", fsz, SCCP_CONFIG_DATATYPE_GENERIC, SCCP_CONFIG_FLAG_NONE, SCCP_CONFIG_NOUPDATENEEDED, some "", some ConverterRef.amaflagsC⟩,
  ⟨"protocolversion", some "protocolversion", fsz, SCCP_CONFIG_DATATYPE_GENERIC, SCCP_CONFIG_FLAG_OBSOLETE, SCCP_CONFIG_NOUPDATENEEDED, some "20", none⟩,
  ⟨"callanswerorder", some "callanswerorder", fsz, SCCP_CONFIG_DATATYPE_GENERIC, SCCP_CONFIG_FLAG_NONE, SCCP_CONFIG_NOUPDATENEEDED, some "oldestfirst", some ConverterRef.callanswerorderC⟩,
  ⟨"regcontext", some "regcontext", fsz, SCCP_CONFIG_DATATYPE_STRING, SCCP_CONFIG_FLAG_NONE, SCCP_CONFIG_NEEDDEVICERESET, some "sccpregistration", some ConverterRef.regcontextC⟩,
  ⟨"devicetable", some "realtimedevicetable", fsz, SCCP_CONFIG_DATATYPE_STRING, SCCP_CONFIG_FLAG_NONE, SCCP_CONFIG_NOUPDATENEEDED, some "sccpdevice", none⟩,
  ⟨"linetable", some "realtimelinetable", fsz, SCCP_CONFIG_DATATYPE_STRING, SCCP_CONFIG_FLAG_NONE, SCCP_CONFIG_NOUPDATENEEDED, some "sccpline", none⟩,
  ⟨"meetme", some "meetme", fsz, SCCP_CONFIG_DATATYPE_BOOLEAN, SCCP_CONFIG_FLAG_NONE, SCCP_CONFIG_NOUPDATENEEDED, some "on", none⟩,
  ⟨"meetmeopts", some "meetmeopts", fsz, SCCP_CONFIG_DATATYPE_STRING, SCCP_CONFIG_FLAG_NONE, SCCP_CONFIG_NOUPDATENEEDED, some "qxd", none⟩,
  ⟨"hotline_enabled", some "allowAnonymous", fsz, SCCP_CONFIG_DATATYPE_BOOLEAN, SCCP_CONFIG_FLAG_NONE, SCCP_CONFIG_NOUPDATENEEDED, some "no", none⟩,
  ⟨"fallback", some "token_fallback", fsz, SCCP_CONFIG_DATATYPE_STRING, SCCP_CONFIG_FLAG_NONE, SCCP_CONFIG_NOUPDATENEEDED, some "false", none⟩,
  ⟨"backoff_time", some "token_backoff_time", fsz, SCCP_CONFIG_DATATYPE_INT, SCCP_CONFIG_FLAG_NONE, SCCP_CONFIG_NOUPDATENEEDED, some "60", none⟩]

/-- List of SCCP Config Options for SCCP Devices (sccpDeviceConfigOptions).
Offsets are the D_OBJ_REF field names of struct sccp_device. -/
def sccpDeviceConfigOptions : List SCCPConfigOption := [
  ⟨"name", none, 0, SCCP_CONFIG_DATATYPE_STRING, SCCP_CONFIG_FLAG_IGNORE, SCCP_CONFIG_NOUPDATENEEDED, none, none⟩,
  ⟨"type", none, 0, SCCP_CONFIG_DATATYPE_STRING, SCCP_CONFIG_FLAG_IGNORE, SCCP_CONFIG_NOUPDATENEEDED, none, none⟩,
  ⟨"device", some "config_type", fsz, SCCP_CONFIG_DATATYPE_STRING, SCCP_CONFIG_FLAG_NONE, SCCP_CONFIG_NEEDDEVICERESET, none, none⟩,
  ⟨"devicetype", some "config_type", fsz, SCCP_CONFIG_DATATYPE_STRING, SCCP_CONFIG_FLAG_NONE, SCCP_CONFIG_NEEDDEVICERESET, none, none⟩,
  ⟨"type", some "config_type", fsz, SCCP_CONFIG_DATATYPE_STRING, SCCP_CONFIG_FLAG_NONE, SCCP_CONFIG_NEEDDEVICERESET, none, none⟩,
  ⟨"description", some "description", fsz, SCCP_CONFIG_DATATYPE_STRING, SCCP_CONFIG_FLAG_NONE, SCCP_CONFIG_NEEDDEVICERESET, none, none⟩,
  ⟨"keepalive", some "keepalive", fsz, SCCP_CONFIG_DATATYPE_INT, SCCP_CONFIG_FLAG_GET_GLOBAL_DEFAULT, SCCP_CONFIG_NEEDDEVICERESET, none, none⟩,
  ⟨"tzoffset", some "tz_offset", fsz, SCCP_CONFIG_DATATYPE_INT, SCCP_CONFIG_FLAG_NONE, SCCP_CONFIG_NEEDDEVICERESET, some "0", none⟩,
  ⟨"disallow", some "preferences", fsz, SCCP_CONFIG_DATATYPE_GENERIC, SCCP_CONFIG_FLAG_GET_GLOBAL_DEFAULT, SCCP_CONFIG_NOUPDATENEEDED, none, some ConverterRef.disallowCodecC⟩,
  ⟨"allow", some "preferences", fsz, SCCP_CONFIG_DATATYPE_GENERIC, SCCP_CONFIG_FLAG_GET_GLOBAL_DEFAULT, SCCP_CONFIG_NOUPDATENEEDED, none, some ConverterRef.allowCodecC⟩,
  ⟨"transfer", some "transfer", fsz, SCCP_CONFIG_DATATYPE_BOOLEAN, SCCP_CONFIG_FLAG_NONE, SCCP_CONFIG_NOUPDATENEEDED, some "on", none⟩,
  ⟨"park", some "park", fsz, SCCP_CONFIG_DATATYPE_BOOLEAN, SCCP_CONFIG_FLAG_NONE, SCCP_CONFIG_NOUPDATENEEDED, some "on", none⟩,
  ⟨"cfwdall", some "cfwdall", fsz, SCCP_CONFIG_DATATYPE_BOOLEAN, SCCP_CONFIG_FLAG_GET_GLOBAL_DEFAULT, SCCP_CONFIG_NOUPDATENEEDED, some "off", none⟩,
  ⟨"cfwdbusy", some "cfwdbusy", fsz, SCCP_CONFIG_DATATYPE_BOOLEAN, SCCP_CONFIG_FLAG_GET_GLOBAL_DEFAULT, SCCP_CONFIG_NOUPDATENEEDED, some "off", none⟩,
  ⟨"cfwdnoanswer", some "cfwdnoanswer", fsz, SCCP_CONFIG_DATATYPE_BOOLEAN, SCCP_CONFIG_FLAG_GET_GLOBAL_DEFAULT, SCCP_CONFIG_NOUPDATENEEDED, some "off", none⟩,
  ⟨"dnd", some "dndFeature.enabled", fsz, SCCP_CONFIG_DATATYPE_BOOLEAN, SCCP_CONFIG_FLAG_OBSOLETE, SCCP_CONFIG_NOUPDATENEEDED, none, none⟩,
  ⟨"dndFeature", some "dndFeature.enabled", fsz, SCCP_CONFIG_DATATYPE_BOOLEAN, SCCP_CONFIG_FLAG_NONE, SCCP_CONFIG_NOUPDATENEEDED, some "on", none⟩,
  ⟨"dtmfmode", some "dtmfmode", fsz, SCCP_CONFIG_DATATYPE_GENERIC, SCCP_CONFIG_FLAG_GET_GLOBAL_DEFAULT, SCCP_CONFIG_NOUPDATENEEDED, some "inband", some ConverterRef.dtmfmodeC⟩,
  ⟨"imageversion", some "imageversion", fsz, SCCP_CONFIG_DATATYPE_STRING, SCCP_CONFIG_FLAG_GET_GLOBAL_DEFAULT, SCCP_CONFIG_NEEDDEVICERESET, none, none⟩,
  ⟨"deny", some "ha", fsz, SCCP_CONFIG_DATATYPE_GENERIC, SCCP_CONFIG_FLAG_GET_GLOBAL_DEFAULT, SCCP_CONFIG_NEEDDEVICERESET, none, some ConverterRef.denyC⟩,
  ⟨"permit", some "ha", fsz, SCCP_CONFIG_DATATYPE_GENERIC, SCCP_CONFIG_FLAG_GET_GLOBAL_DEFAULT, SCCP_CONFIG_NEEDDEVICERESET, none, some ConverterRef.permitC⟩,
  ⟨"audio_tos", some "audio_tos", fsz, SCCP_CONFIG_DATATYPE_GENERIC, SCCP_CONFIG_FLAG_GET_DEVICE_DEFAULT, SCCP_CONFIG_NEEDDEVICERESET, none, some ConverterRef.tosC⟩,
  ⟨"audio_cos", some "audio_cos", fsz, SCCP_CONFIG_DATATYPE_GENERIC, SCCP_CONFIG_FLAG_GET_DEVICE_DEFAULT, SCCP_CONFIG_NEEDDEVICERESET, none, some ConverterRef.cosC⟩,
  ⟨"video_tos", some "video_tos", fsz, SCCP_CONFIG_DATATYPE_GENERIC, SCCP_CONFIG_FLAG_GET_DEVICE_DEFAULT, SCCP_CONFIG_NEEDDEVICERESET, none, some ConverterRef.tosC⟩,
  ⟨"video_cos", some "video_cos", fsz, SCCP_CONFIG_DATATYPE_GENERIC, SCCP_CONFIG_FLAG_GET_DEVICE_DEFAULT, SCCP_CONFIG_NEEDDEVICERESET, none, some ConverterRef.cosC⟩,
  ⟨"trustphoneip", some "trustphoneip", fsz, SCCP_CONFIG_DATATYPE_BOOLEAN, SCCP_CONFIG_FLAG_GET_GLOBAL_DEFAULT, SCCP_CONFIG_NEEDDEVICERESET, none, none⟩,
  ⟨"nat", some "nat", fsz, SCCP_CONFIG_DATATYPE_BOOLEAN, SCCP_CONFIG_FLAG_DEPRECATED ||| SCCP_CONFIG_FLAG_GET_GLOBAL_DEFAULT, SCCP_CONFIG_NOUPDATENEEDED, none, none⟩,
  ⟨"directrtp", some "directrtp", fsz, SCCP_CONFIG_DATATYPE_BOOLEAN, SCCP_CONFIG_FLAG_GET_GLOBAL_DEFAULT, SCCP_CONFIG_NOUPDATENEEDED, none, none⟩,
  ⟨"earlyrtp", some "earlyrtp", fsz, SCCP_CONFIG_DATATYPE_GENERIC, SCCP_CONFIG_FLAG_GET_GLOBAL_DEFAULT, SCCP_CONFIG_NOUPDATENEEDED, none, some ConverterRef.earlyrtpC⟩,
  ⟨"private", some "privacyFeature.enabled", fsz, SCCP_CONFIG_DATATYPE_BOOLEAN, SCCP_CONFIG_FLAG_GET_GLOBAL_DEFAULT, SCCP_CONFIG_NOUPDATENEEDED, none, none⟩,
  ⟨"privacy", some "privacyFeature", fsz, SCCP_CONFIG_DATATYPE_GENERIC, SCCP_CONFIG_FLAG_NONE, SCCP_CONFIG_NOUPDATENEEDED, none, some ConverterRef.privacyFeatureC⟩,
  ⟨"mwilamp", some "mwilamp", fsz, SCCP_CONFIG_DATATYPE_GENERIC, SCCP_CONFIG_FLAG_GET_GLOBAL_DEFAULT, SCCP_CONFIG_NOUPDATENEEDED, none, some ConverterRef.mwilampC⟩,
  ⟨"mwioncall", some "mwioncall", fsz, SCCP_CONFIG_DATATYPE_BOOLEAN, SCCP_CONFIG_FLAG_GET_GLOBAL_DEFAULT, SCCP_CONFIG_NOUPDATENEEDED, none, none⟩,
  ⟨"meetme", some "meetme", fsz, SCCP_CONFIG_DATATYPE_BOOLEAN, SCCP_CONFIG_FLAG_GET_GLOBAL_DEFAULT, SCCP_CONFIG_NOUPDATENEEDED, none, none⟩,
  ⟨"meetmeopts", some "meetmeopts", fsz, SCCP_CONFIG_DATATYPE_STRING, SCCP_CONFIG_FLAG_GET_GLOBAL_DEFAULT, SCCP_CONFIG_NOUPDATENEEDED, none, none⟩,
  ⟨"softkeyset", some "softkeyDefinition", fsz, SCCP_CONFIG_DATATYPE_STRING, SCCP_CONFIG_FLAG_NONE, SCCP_CONFIG_NEEDDEVICERESET, none, none⟩,
  ⟨"pickupexten", some "pickupexten", fsz, SCCP_CONFIG_DATATYPE_BOOLEAN, SCCP_CONFIG_FLAG_NONE, SCCP_CONFIG_NOUPDATENEEDED, some "off", none⟩,
  ⟨"pickupcontext", some "pickupcontext", fsz, SCCP_CONFIG_DATATYPE_GENERIC, SCCP_CONFIG_FLAG_NONE, SCCP_CONFIG_NOUPDATENEEDED, some "sccp", some ConverterRef.contextC⟩,
  ⟨"pickupmodeanswer", some "pickupmodeanswer", fsz, SCCP_CONFIG_DATATYPE_BOOLEAN, SCCP_CONFIG_FLAG_NONE, SCCP_CONFIG_NOUPDATENEEDED, some "on", none⟩,
  ⟨"monitor", some "monitorFeature.enabled", fsz, SCCP_CONFIG_DATATYPE_BOOLEAN, SCCP_CONFIG_FLAG_NONE, SCCP_CONFIG_NOUPDATENEEDED, none, none⟩,
  ⟨"allowoverlap", some "overlapFeature.enabled", fsz, SCCP_CONFIG_DATATYPE_BOOLEAN, SCCP_CONFIG_FLAG_NONE, SCCP_CONFIG_NOUPDATENEEDED, none, none⟩,
  ⟨"setvar", some "variables", fsz, SCCP_CONFIG_DATATYPE_GENERIC, SCCP_CONFIG_FLAG_NONE, SCCP_CONFIG_NOUPDATENEEDED, none, some ConverterRef.variablesC⟩,
  ⟨"permithost", some "permithosts", fsz, SCCP_CONFIG_DATATYPE_GENERIC, SCCP_CONFIG_FLAG_NONE, SCCP_CONFIG_NEEDDEVICERESET, none, some ConverterRef.permithostsC⟩,
  ⟨"addon", some "addons", fsz, SCCP_CONFIG_DATATYPE_GENERIC, SCCP_CONFIG_FLAG_NONE, SCCP_CONFIG_NEEDDEVICERESET, none, some ConverterRef.addonsC⟩,
  ⟨"dtmfmode", some "dtmfmode", fsz, SCCP_CONFIG_DATATYPE_GENERIC, SCCP_CONFIG_FLAG_GET_GLOBAL_DEFAULT, SCCP_CONFIG_NOUPDATENEEDED, none, some ConverterRef.dtmfmodeC⟩,
  ⟨"button", some "buttonconfig", fsz, SCCP_CONFIG_DATATYPE_GENERIC, SCCP_CONFIG_FLAG_NONE, SCCP_CONFIG_NEEDDEVICERESET, none, some ConverterRef.buttonC⟩,
  ⟨"digittimeout", some "digittimeout", fsz, SCCP_CONFIG_DATATYPE_GENERIC, SCCP_CONFIG_FLAG_GET_GLOBAL_DEFAULT, SCCP_CONFIG_NOUPDATENEEDED, some "8", some ConverterRef.smallintC⟩]

/-- List of SCCP Config Options for SCCP Lines (sccpLineConfigOptions).
Offsets are the L_OBJ_REF field names of struct sccp_line. -/
def sccpLineConfigOptions : List SCCPConfigOption := [
  ⟨"name", none, 0, SCCP_CONFIG_DATATYPE_STRING, SCCP_CONFIG_FLAG_IGNORE, SCCP_CONFIG_NOUPDATENEEDED, none, none⟩,
  ⟨"line", none, 0, SCCP_CONFIG_DATATYPE_STRING, SCCP_CONFIG_FLAG_IGNORE, SCCP_CONFIG_NOUPDATENEEDED, none, none⟩,
  ⟨"type", none, 0, SCCP_CONFIG_DATATYPE_STRING, SCCP_CONFIG_FLAG_IGNORE, SCCP_CONFIG_NOUPDATENEEDED, none, none⟩,
  ⟨"id", some "id", fsz, SCCP_CONFIG_DATATYPE_STRING, SCCP_CONFIG_FLAG_NONE, SCCP_CONFIG_NOUPDATENEEDED, none, none⟩,
  ⟨"pin", some "pin", fsz, SCCP_CONFIG_DATATYPE_STRING, SCCP_CONFIG_FLAG_REQUIRED, SCCP_CONFIG_NOUPDATENEEDED, none, none⟩,
  ⟨"label", some "label", fsz, SCCP_CONFIG_DATATYPE_STRING, SCCP_CONFIG_FLAG_REQUIRED, SCCP_CONFIG_NEEDDEVICERESET, none, none⟩,
  ⟨"description", some "description", fsz, SCCP_CONFIG_DATATYPE_STRING, SCCP_CONFIG_FLAG_NONE, SCCP_CONFIG_NOUPDATENEEDED, none, none⟩,
  ⟨"context", some "context", fsz, SCCP_CONFIG_DATATYPE_STRING, SCCP_CONFIG_FLAG_GET_GLOBAL_DEFAULT, SCCP_CONFIG_NOUPDATENEEDED, none, none⟩,
  ⟨"cid_name", some "cid_name", fsz, SCCP_CONFIG_DATATYPE_STRING, SCCP_CONFIG_FLAG_REQUIRED, SCCP_CONFIG_NOUPDATENEEDED, none, none⟩,
  ⟨"cid_num", some "cid_num", fsz, SCCP_CONFIG_DATATYPE_STRING, SCCP_CONFIG_FLAG_REQUIRED, SCCP_CONFIG_NOUPDATENEEDED, none, none⟩,
  ⟨"defaultSubscriptionId_name", some "defaultSubscriptionId.name", fsz, SCCP_CONFIG_DATATYPE_STRING, SCCP_CONFIG_FLAG_NONE, SCCP_CONFIG_NOUPDATENEEDED, none, none⟩,
  ⟨"defaultSubscriptionId_number", some "defaultSubscriptionId.number", fsz, SCCP_CONFIG_DATATYPE_STRING, SCCP_CONFIG_FLAG_NONE, SCCP_CONFIG_NOUPDATENEEDED, none, none⟩,
  ⟨"callerid", none, 0, SCCP_CONFIG_DATATYPE_STRING, SCCP_CONFIG_FLAG_OBSOLETE, SCCP_CONFIG_NOUPDATENEEDED, none, none⟩,
  ⟨"mailbox", some "mailboxes", fsz, SCCP_CONFIG_DATATYPE_GENERIC, SCCP_CONFIG_FLAG_NONE, SCCP_CONFIG_NOUPDATENEEDED, none, some ConverterRef.mailboxC⟩,
  ⟨"vmnum", some "vmnum", fsz, SCCP_CONFIG_DATATYPE_STRING, SCCP_CONFIG_FLAG_NONE, SCCP_CONFIG_NOUPDATENEEDED, none, none⟩,
  ⟨"adhocNumber", some "adhocNumber", fsz, SCCP_CONFIG_DATATYPE_STRING, SCCP_CONFIG_FLAG_NONE, SCCP_CONFIG_NOUPDATENEEDED, none, none⟩,
  ⟨"meetme", some "meetme", fsz, SCCP_CONFIG_DATATYPE_BOOLEAN, SCCP_CONFIG_FLAG_GET_DEVICE_DEFAULT, SCCP_CONFIG_NOUPDATENEEDED, none, none⟩,
  ⟨"meetmenum", some "meetmenum", fsz, SCCP_CONFIG_DATATYPE_STRING, SCCP_CONFIG_FLAG_GET_GLOBAL_DEFAULT, SCCP_CONFIG_NOUPDATENEEDED, none, none⟩,
  ⟨"meetmeopts", some "meetmeopts", fsz, SCCP_CONFIG_DATATYPE_STRING, SCCP_CONFIG_FLAG_GET_DEVICE_DEFAULT, SCCP_CONFIG_NOUPDATENEEDED, none, none⟩,
  ⟨"transfer", some "transfer", fsz, SCCP_CONFIG_DATATYPE_BOOLEAN, SCCP_CONFIG_FLAG_GET_DEVICE_DEFAULT, SCCP_CONFIG_NOUPDATENEEDED, none, none⟩,
  ⟨"incominglimit", some "incominglimit", fsz, SCCP_CONFIG_DATATYPE_INT, SCCP_CONFIG_FLAG_NONE, SCCP_CONFIG_NOUPDATENEEDED, none, none⟩,
  ⟨"echocancel", some "echocancel", fsz, SCCP_CONFIG_DATATYPE_BOOLEAN, SCCP_CONFIG_FLAG_GET_GLOBAL_DEFAULT, SCCP_CONFIG_NOUPDATENEEDED, none, none⟩,
  ⟨"silencesuppression", some "silencesuppression", fsz, SCCP_CONFIG_DATATYPE_BOOLEAN, SCCP_CONFIG_FLAG_GET_GLOBAL_DEFAULT, SCCP_CONFIG_NOUPDATENEEDED, none, none⟩,
  ⟨"language", some "language", fsz, SCCP_CONFIG_DATATYPE_STRING, SCCP_CONFIG_FLAG_GET_GLOBAL_DEFAULT, SCCP_CONFIG_NOUPDATENEEDED, none, none⟩,
  ⟨"musicclass", some "musicclass", fsz, SCCP_CONFIG_DATATYPE_STRING, SCCP_CONFIG_FLAG_GET_GLOBAL_DEFAULT, SCCP_CONFIG_NOUPDATENEEDED, none, none⟩,
  ⟨"accountcode", some "accountcode", fsz, SCCP_CONFIG_DATATYPE_STRING, SCCP_CONFIG_FLAG_NONE, SCCP_CONFIG_NOUPDATENEEDED, none, none⟩,
  ⟨"amaflags", some "amaflags", fsz, SCCP_CONFIG_DATATYPE_GENERIC, SCCP_CONFIG_FLAG_NONE, SCCP_CONFIG_NOUPDATENEEDED, none, some ConverterRef.amaflagsC⟩,
  ⟨"callgroup", some "callgroup", fsz, SCCP_CONFIG_DATATYPE_GENERIC, SCCP_CONFIG_FLAG_NONE, SCCP_CONFIG_NOUPDATENEEDED, none, some ConverterRef.groupC⟩,
  ⟨"pickupgroup", some "pickupgroup", fsz, SCCP_CONFIG_DATATYPE_GENERIC, SCCP_CONFIG_FLAG_NONE, SCCP_CONFIG_NOUPDATENEEDED, none, some ConverterRef.groupC⟩,
  ⟨"trnsfvm", some "trnsfvm", fsz, SCCP_CONFIG_DATATYPE_STRINGPTR, SCCP_CONFIG_FLAG_NONE, SCCP_CONFIG_NOUPDATENEEDED, none, none⟩,
  ⟨"secondary_dialtone_digits", some "secondary_dialtone_digits", fsz, SCCP_CONFIG_DATATYPE_GENERIC, SCCP_CONFIG_FLAG_NONE, SCCP_CONFIG_NOUPDATENEEDED, some "9", some ConverterRef.secondaryDialtoneDigitsC⟩,
  ⟨"secondary_dialtone_tone", some "secondary_dialtone_tone", fsz, SCCP_CONFIG_DATATYPE_INT, SCCP_CONFIG_FLAG_NONE, SCCP_CONFIG_NOUPDATENEEDED, some "0x22", none⟩,
  ⟨"setvar", some "variables", fsz, SCCP_CONFIG_DATATYPE_GENERIC, SCCP_CONFIG_FLAG_NONE, SCCP_CONFIG_NOUPDATENEEDED, none, some ConverterRef.variablesC⟩,
  ⟨"dnd", some "dndmode", fsz, SCCP_CONFIG_DATATYPE_GENERIC, SCCP_CONFIG_FLAG_GET_GLOBAL_DEFAULT, SCCP_CONFIG_NOUPDATENEEDED, some "reject", some ConverterRef.dndC⟩,
  ⟨"regexten", some "regexten", fsz, SCCP_CONFIG_DATATYPE_STRING, SCCP_CONFIG_FLAG_NONE, SCCP_CONFIG_NOUPDATENEEDED, none, none⟩,
  ⟨"test1", some "regexten", fsz, SCCP_CONFIG_DATATYPE_STRING, SCCP_CONFIG_FLAG_OBSOLETE, SCCP_CONFIG_NOUPDATENEEDED, none, none⟩,
  ⟨"test2", some "regexten", fsz, SCCP_CONFIG_DATATYPE_STRING, SCCP_CONFIG_FLAG_DEPRECATED, SCCP_CONFIG_NOUPDATENEEDED, none, none⟩]

/-- List of SCCP Config Options for SCCP SoftKey (sccpSoftKeyConfigOptions).
Offsets are the S_OBJ_REF field names of struct softKeySetConfiguration. -/
def sccpSoftKeyConfigOptions : List SCCPConfigOption := [
  ⟨"type", none, 0, SCCP_CONFIG_DATATYPE_STRING, SCCP_CONFIG_FLAG_IGNORE, SCCP_CONFIG_NOUPDATENEEDED, some "softkeyset", none⟩,
  ⟨"name", some "name", fsz, SCCP_CONFIG_DATATYPE_STRING, SCCP_CONFIG_FLAG_NONE, SCCP_CONFIG_NOUPDATENEEDED, none, none⟩,
  ⟨"connected", some "modes[0]", fsz, SCCP_CONFIG_DATATYPE_STRING, SCCP_CONFIG_FLAG_NONE, SCCP_CONFIG_NOUPDATENEEDED, some "hold,endcall,park,select,cfwdall,cfwdbusy,idivert", none⟩,
  ⟨"onhold", some "modes[1]", fsz, SCCP_CONFIG_DATATYPE_STRING, SCCP_CONFIG_FLAG_NONE, SCCP_CONFIG_NOUPDATENEEDED, some "resume,newcall,endcall,transfer,conflist,select,dirtrfr,idivert,meetme", none⟩,
  ⟨"ringin", some "modes[2]", fsz, SCCP_CONFIG_DATATYPE_STRING, SCCP_CONFIG_FLAG_NONE, SCCP_CONFIG_NOUPDATENEEDED, some "answer,endcall,transvm,idivert", none⟩,
  ⟨"offhook", some "modes[3]", fsz, SCCP_CONFIG_DATATYPE_STRING, SCCP_CONFIG_FLAG_NONE, SCCP_CONFIG_NOUPDATENEEDED, some "redial,endcall,private,cfwdall,cfwdbusy,pickup,gpickup,meetme,barge", none⟩,
  ⟨"conntrans", some "modes[4]", fsz, SCCP_CONFIG_DATATYPE_STRING, SCCP_CONFIG_FLAG_NONE, SCCP_CONFIG_NOUPDATENEEDED, some "hold,endcall,transfer,conf,park,select,dirtrfr,meetme,cfwdall,cfwdbusy", none⟩,
  ⟨"digitsfoll", some "modes[5]", fsz, SCCP_CONFIG_DATATYPE_STRING, SCCP_CONFIG_FLAG_NONE, SCCP_CONFIG_NOUPDATENEEDED, some "back,endcall", none⟩,
  ⟨"connconf", some "modes[6]", fsz, SCCP_CONFIG_DATATYPE_STRING, SCCP_CONFIG_FLAG_NONE, SCCP_CONFIG_NOUPDATENEEDED, some "conflist,endcall,join,hold", none⟩,
  ⟨"ringout", some "modes[7]", fsz, SCCP_CONFIG_DATATYPE_STRING, SCCP_CONFIG_FLAG_NONE, SCCP_CONFIG_NOUPDATENEEDED, some "endcall,transfer,cfwdall,idivert", none⟩,
  ⟨"offhookfeat", some "modes[8]", fsz, SCCP_CONFIG_DATATYPE_STRING, SCCP_CONFIG_FLAG_NONE, SCCP_CONFIG_NOUPDATENEEDED, some "redial,endcall", none⟩,
  ⟨"onhint", some "modes[9]", fsz, SCCP_CONFIG_DATATYPE_STRING, SCCP_CONFIG_FLAG_NONE, SCCP_CONFIG_NOUPDATENEEDED, some "newcall,pickup,barge", none⟩,
  ⟨"onstealable", some "modes[10]", fsz, SCCP_CONFIG_DATATYPE_STRING, SCCP_CONFIG_FLAG_NONE, SCCP_CONFIG_NOUPDATENEEDED, some "redial,newcall,cfwdall,pickup,gpickup,dnd,intrcpt", none⟩]

/-! ### Segment table and lookups -/

structure SCCPConfigSegment where
  name : String
  segment : sccp_config_segment_t
  config : List SCCPConfigOption
deriving DecidableEq, Repr

def sccpConfigSegments : List SCCPConfigSegment := [
  ⟨"global", SCCP_CONFIG_GLOBAL_SEGMENT, sccpGlobalConfigOptions⟩,
  ⟨"device", SCCP_CONFIG_DEVICE_SEGMENT, sccpDeviceConfigOptions⟩,
  ⟨"line", SCCP_CONFIG_LINE_SEGMENT, sccpLineConfigOptions⟩,
  ⟨"softkey", SCCP_CONFIG_SOFTKEY_SEGMENT, sccpSoftKeyConfigOptions⟩]

def sccp_find_segment (segment : sccp_config_segment_t) : Option SCCPConfigSegment :=
  sccpConfigSegments.find? (fun s => s.segment == segment)

/-- Find an option row by name, case-insensitively, first match wins. -/
def sccp_find_config (segment : sccp_config_segment_t) (name : String) :
    Option SCCPConfigOption :=
  match sccp_find_segment segment with
  | none => none
  | some seg => seg.config.find? (fun o => strcaseEq o.name name)

/-! ### sccp_config_object_setValue -/

/-- Apply one (name, value) pair to a live object.  Mirrors the source: the
flags switch matches the exact flag set; the CHANGED and DEPRECATED cases log
and fall through into the OBSOLETE case, which returns without applying; the
REQUIRED case signals invalid-value only for a NULL value; the data type
dispatch performs per-type change detection, the CHAR and STRING cases
assigning the raw changed indicator to the returned classification directly
while the other types map a changed indicator through the option's change
classification.  The lineno argument feeds only log output. -/
def sccp_config_object_setValue (obj : SCCPObject) (name : String) (value : Option String)
    (_lineno : Nat) (segment : sccp_config_segment_t) : SCCPObject × Nat :=
  match sccp_find_config segment name with
  | none => (obj, SCCP_CONFIG_NOUPDATENEEDED)
  | some sccpConfigOption =>
    match sccpConfigOption.offset with
    | none => (obj, SCCP_CONFIG_NOUPDATENEEDED)
    | some dst =>
      let flags := sccpConfigOption.flags
      if flags == SCCP_CONFIG_FLAG_IGNORE then (obj, SCCP_CONFIG_NOUPDATENEEDED)
      else if flags == SCCP_CONFIG_FLAG_CHANGED ∨ flags == SCCP_CONFIG_FLAG_DEPRECATED ∨
          flags == SCCP_CONFIG_FLAG_OBSOLETE then
        (obj, SCCP_CONFIG_NOUPDATENEEDED)
      else if flags == SCCP_CONFIG_FLAG_REQUIRED ∧ value == none then
        (obj, SCCP_CONFIG_CHANGE_INVALIDVALUE)
      else
        match sccpConfigOption.dataType with
        | SCCP_CONFIG_DATATYPE_CHAR =>
          let oldChar := asChar (readField obj dst)
          if !sccp_strlen_zero value then
            let c := (((value.getD "").data.head?).getD (Char.ofNat 0))
            if oldChar != c then
              (writeField obj dst (charF c), SCCP_CONFIG_CHANGE_CHANGED)
            else (obj, SCCP_CONFIG_NOUPDATENEEDED)
          else (obj, SCCP_CONFIG_NOUPDATENEEDED)
        | SCCP_CONFIG_DATATYPE_STRING =>
          match value with
          | none =>
            -- the source would pass NULL to strcasecmp here; not reachable
            -- from the callers modelled in this development
            (obj, SCCP_CONFIG_NOUPDATENEEDED)
          | some v =>
            let str := asStr (readField obj dst)
            if !strcaseEq str v then
              (writeField obj dst (strF (pbx_copy_string v sccpConfigOption.size)),
               SCCP_CONFIG_CHANGE_CHANGED)
            else (obj, SCCP_CONFIG_NOUPDATENEEDED)
        | SCCP_CONFIG_DATATYPE_STRINGPTR =>
          let str := asStrPtr (readField obj dst)
          let applied : SCCPObject × Nat :=
            if !sccp_strlen_zero value then
              let v := value.getD ""
              match str with
              | some s =>
                if !strcaseEq s v then
                  (writeField obj dst (strptrF (some v)), SCCP_CONFIG_CHANGE_CHANGED)
                else (obj, SCCP_CONFIG_CHANGE_NOCHANGE)
              | none => (writeField obj dst (strptrF (some v)), SCCP_CONFIG_CHANGE_CHANGED)
            else if !sccp_strlen_zero str then
              (writeField obj dst (strptrF none), SCCP_CONFIG_CHANGE_CHANGED)
            else (obj, SCCP_CONFIG_CHANGE_NOCHANGE)
          (applied.1,
           if applied.2 == SCCP_CONFIG_CHANGE_CHANGED then sccpConfigOption.change
           else SCCP_CONFIG_NOUPDATENEEDED)
        | SCCP_CONFIG_DATATYPE_INT =>
          if !sccp_strlen_zero value then
            let intnum := atoi (value.getD "")
            if asInt (readField obj dst) != intnum then
              (writeField obj dst (intF intnum), sccpConfigOption.change)
            else (obj, SCCP_CONFIG_NOUPDATENEEDED)
          else (obj, SCCP_CONFIG_NOUPDATENEEDED)
        | SCCP_CONFIG_DATATYPE_BOOLEAN =>
          let b := sccp_true value
          if asBool (readField obj dst) != b then
            (writeField obj dst (boolF b), sccpConfigOption.change)
          else (obj, SCCP_CONFIG_NOUPDATENEEDED)
        | SCCP_CONFIG_DATATYPE_GENERIC =>
          match sccpConfigOption.converter_f with
          | none => (obj, SCCP_CONFIG_NOUPDATENEEDED)
          | some conv =>
            match value with
            | none =>
              -- the source would pass NULL into the converter here; not
              -- reachable from the callers modelled in this development
              (obj, SCCP_CONFIG_NOUPDATENEEDED)
            | some v =>
              let r := evalConverter conv (readField obj dst) sccpConfigOption.size v segment
              (writeField obj dst r.1,
               if r.2 == SCCP_CONFIG_CHANGE_CHANGED then sccpConfigOption.change
               else SCCP_CONFIG_NOUPDATENEEDED)

/-! ### sccp_config_set_defaults -/

/-- Default resolution for one option row.  Mirrors the switch of
sccp_config_set_defaults: the device-default case retrieves the value from
the config source section named by the object identifier (the source casts the
object to a device and reads its id), falling back to the device segment's
compiled default, and then FALLS THROUGH into the global-default case, which
unconditionally overwrites the value with the general-section lookup and its
fallbacks; every case falls through into the default case, which substitutes
the option's own compiled default when the value is still NULL.  `carried` is
the value variable carried over from the previous loop iteration (initially
the empty string). -/
def resolveDefaultValue (cfg : ast_config) (obj : SCCPObject) (_segment : sccp_config_segment_t)
    (o : SCCPConfigOption) (carried : Option String) : Option String :=
  if o.flags == SCCP_CONFIG_FLAG_GET_DEVICE_DEFAULT then
    let _deviceValue : Option String :=
      match pbx_variable_retrieve cfg obj.id o.name with
      | some v => some v
      | none =>
        match sccp_find_config SCCP_CONFIG_DEVICE_SEGMENT o.name with
        | some dopt => dopt.defaultValue
        | none => none
    -- fallthrough into the global-default case overwrites _deviceValue
    let globalValue : Option String :=
      match pbx_variable_retrieve cfg "general" o.name with
      | some v => some v
      | none =>
        match sccp_find_config SCCP_CONFIG_GLOBAL_SEGMENT o.name with
        | some gopt => gopt.defaultValue
        | none => none
    match globalValue with
    | some v => some v
    | none => o.defaultValue
  else if o.flags == SCCP_CONFIG_FLAG_GET_GLOBAL_DEFAULT then
    let globalValue : Option String :=
      match pbx_variable_retrieve cfg "general" o.name with
      | some v => some v
      | none =>
        match sccp_find_config SCCP_CONFIG_GLOBAL_SEGMENT o.name with
        | some gopt => gopt.defaultValue
        | none => none
    match globalValue with
    | some v => some v
    | none => o.defaultValue
  else
    match carried with
    | some v => some v
    | none => o.defaultValue

/-- One iteration of the set_defaults loop: skip rows already set or
obsolete-flagged; otherwise resolve the default and, when nonempty, run it
back through sccp_config_object_setValue; the value variable is reset to NULL
whenever it was non-NULL. -/
def setDefaultsStep (cfg : ast_config) (segment : sccp_config_segment_t)
    (o : SCCPConfigOption) (alreadySet : Bool) (st : SCCPObject × Option String) :
    SCCPObject × Option String :=
  if alreadySet == false && (o.flags &&& SCCP_CONFIG_FLAG_OBSOLETE) == 0 then
    let value := resolveDefaultValue cfg st.1 segment o st.2
    match value with
    | some v =>
      let obj1 :=
        if !sccp_strlen_zero (some v) then
          (sccp_config_object_setValue st.1 o.name (some v) 0 segment).1
        else st.1
      (obj1, none)
    | none => (st.1, none)
  else st

/-- Set object defaults from the predecessor segments (device / global) and
the compiled defaults.  The arraySize parameter is overridden with the table
length for the global, device and line segments, as in the source. -/
def sccp_config_set_defaults (cfg : ast_config) (obj : SCCPObject)
    (segment : sccp_config_segment_t) (alreadySetEntries : List Bool) (arraySize : Nat) :
    SCCPObject :=
  let sccpDstConfig := ((sccp_find_segment segment).map (fun s => s.config)).getD []
  let count : Nat :=
    match segment with
    | SCCP_CONFIG_SOFTKEY_SEGMENT => arraySize
    | _ => sccpDstConfig.length
  let folded := (List.range count).foldl
    (fun (st : SCCPObject × Option String) (i : Nat) =>
      match sccpDstConfig[i]? with
      | some o => setDefaultsStep cfg segment o (alreadySetEntries.getD i false) st
      | none => st)
    (obj, some "")
  folded.1

/-! ### Reconciliation passes (applyGlobal/Device/LineConfiguration) -/

/-- Mark the table entries matching a supplied name as already set. -/
def markAlreadySet (table : List SCCPConfigOption) (already : List Bool) (name : String) :
    List Bool :=
  (List.range table.length).map (fun i =>
    match table[i]? with
    | some o => already.getD i false || strcaseEq o.name name
    | none => already.getD i false)

/-- Process the supplied (name, value) pairs in arrival order, OR-accumulating
the per-pair classifications and tracking which options were supplied. -/
def processPairs (segment : sccp_config_segment_t) (table : List SCCPConfigOption)
    (pairs : List (String × Option String)) (obj : SCCPObject) (res : Nat)
    (already : List Bool) : SCCPObject × Nat × List Bool :=
  match pairs with
  | [] => (obj, res, already)
  | (n, v) :: rest =>
    let r := sccp_config_object_setValue obj n v 0 segment
    processPairs segment table rest r.1 (res ||| r.2) (markAlreadySet table already n)

def sccp_config_applyGlobalConfiguration (cfg : ast_config) (sccp_globals : SCCPObject)
    (v : List (String × Option String)) : SCCPObject × Nat :=
  let folded := processPairs SCCP_CONFIG_GLOBAL_SEGMENT sccpGlobalConfigOptions v
    sccp_globals SCCP_CONFIG_NOUPDATENEEDED
    (List.replicate sccpGlobalConfigOptions.length false)
  (sccp_config_set_defaults cfg folded.1 SCCP_CONFIG_GLOBAL_SEGMENT folded.2.2
    sccpGlobalConfigOptions.length, folded.2.1)

def sccp_config_applyLineConfiguration (cfg : ast_config) (l : SCCPObject)
    (v : List (String × Option String)) : SCCPObject × Nat :=
  let l :=
    if l.pendingDelete then
      match readField l "variables" with
      | some (variablesF (_ :: _)) => writeField l "variables" (variablesF [])
      | _ => l
    else l
  let folded := processPairs SCCP_CONFIG_LINE_SEGMENT sccpLineConfigOptions v
    l SCCP_CONFIG_NOUPDATENEEDED (List.replicate sccpLineConfigOptions.length false)
  (sccp_config_set_defaults cfg folded.1 SCCP_CONFIG_LINE_SEGMENT folded.2.2
    sccpLineConfigOptions.length, folded.2.1)

def sccp_config_applyDeviceConfiguration (cfg : ast_config) (d : SCCPObject)
    (v : List (String × Option String)) : SCCPObject × Nat :=
  let d :=
    if d.pendingDelete then
      let d := writeField d "addons" (addonsF [])
      let d :=
        match readField d "variables" with
        | some (variablesF (_ :: _)) => writeField d "variables" (variablesF [])
        | _ => d
      let d := writeField d "permithosts" (permithostsF [])
      writeField d "ha" (haF [])
    else d
  let folded := processPairs SCCP_CONFIG_DEVICE_SEGMENT sccpDeviceConfigOptions v
    d SCCP_CONFIG_NOUPDATENEEDED (List.replicate sccpDeviceConfigOptions.length false)
  (sccp_config_set_defaults cfg folded.1 SCCP_CONFIG_DEVICE_SEGMENT folded.2.2
    sccpDeviceConfigOptions.length, folded.2.1)

/-! ### SoftKeySetBuilder -/

/-- KEYMODE constants of common.h. -/
def KEYMODE_ONHOOK : Nat := 0

def KEYMODE_CONNECTED : Nat := 1

def KEYMODE_ONHOLD : Nat := 2

def KEYMODE_RINGIN : Nat := 3

def KEYMODE_OFFHOOK : Nat := 4

def KEYMODE_CONNTRANS : Nat := 5

def KEYMODE_DIGITSFOLL : Nat := 6

def KEYMODE_CONNCONF : Nat := 7

def KEYMODE_RINGOUT : Nat := 8

def KEYMODE_OFFHOOKFEAT : Nat := 9

def KEYMODE_INUSEHINT : Nat := 10

def KEYMODE_ONHOOKSTEALABLE : Nat := 11

/-- Modelled from the spec: softKeyTemplate is declared in sccp_softkeys.h,
which is not part of src/; a label-name to numeric-id table over the label
names appearing in the compiled softkey defaults, with distinct nonzero ids
(the empty sentinel is 0). -/
def softKeyTemplate : List (String × Nat) :=
  [("redial", 1), ("newcall", 2), ("hold", 3), ("transfer", 4), ("cfwdall", 5),
   ("cfwdbusy", 6), ("cfwdnoanswer", 7), ("back", 8), ("endcall", 9), ("resume", 10),
   ("answer", 11), ("info", 12), ("conf", 13), ("park", 14), ("join", 15),
   ("meetme", 16), ("pickup", 17), ("gpickup", 18), ("rmlstc", 19), ("callback", 20),
   ("barge", 21), ("dnd", 22), ("conflist", 23), ("select", 24), ("private", 25),
   ("transvm", 26), ("dirtrfr", 27), ("idivert", 28), ("intrcpt", 29), ("empty", 0)]

/-- Get softkey label as int; returns the empty sentinel if nothing matched. -/
def sccp_config_getSoftkeyLbl (key : String) : Nat :=
  match softKeyTemplate.find? (fun t => strcaseEq t.1 key) with
  | some t => t.2
  | none => SKINNY_LBL_EMPTY

/-- Read a single softkey mode label list into a fixed-capacity buffer.
Mirrors the source: the strsep loop writes at most
StationMaxSoftKeySetDefinition - 1 labels (the bound is checked as i + 1
before each write), the padding loop then fills the slots from index count + 1
on with the empty sentinel, leaving slot count itself untouched (the callers
hand in a calloc-zeroed buffer), and the label count is returned. -/
def sccp_config_readSoftSet (softkeyset : List Nat) (data : Option String) :
    List Nat × Nat :=
  match data with
  | none => (softkeyset, 0)
  | some d =>
    let labels := splitOnChar ',' d
    let i := min labels.length (StationMaxSoftKeySetDefinition - 1)
    let written := (labels.take i).map sccp_config_getSoftkeyLbl
    let buf1 := written ++ softkeyset.drop i
    let buf2 := buf1.take (i + 1) ++
      List.replicate (StationMaxSoftKeySetDefinition - (i + 1)) SKINNY_LBL_EMPTY
    (buf2, i)

/-- One modes[] slot: the softkey_modes {id, ptr, count} triple of common.h,
the pointer carrying the fixed-capacity label buffer when present. -/
structure softkey_mode_slot where
  id : Nat
  ptr : Option (List Nat)
  count : Nat
deriving DecidableEq, Repr

/-- The ids of the SoftKeyModes table of common.h, in declaration order. -/
def SoftKeyModesIds : List Nat :=
  [KEYMODE_ONHOOK, KEYMODE_CONNECTED, KEYMODE_ONHOLD, KEYMODE_RINGIN, KEYMODE_OFFHOOK,
   KEYMODE_CONNTRANS, KEYMODE_DIGITSFOLL, KEYMODE_CONNCONF, KEYMODE_RINGOUT,
   KEYMODE_OFFHOOKFEAT, KEYMODE_INUSEHINT, KEYMODE_ONHOOKSTEALABLE]

/-- struct sccp_softKeySetConfiguration is declared in sccp_softkeys.h, which
is not part of src/.  Modelled from the spec: a named configuration with an
array indexed by key mode of label-sequence/count pairs. -/
structure sccp_softKeySetConfiguration_t where
  name : String
  numberOfSoftKeySets : Nat
  modes : List softkey_mode_slot
deriving DecidableEq, Repr

/-- A calloc-zeroed softkey set configuration carrying a name. -/
def freshSoftKeySetConfiguration (name : String) : sccp_softKeySetConfiguration_t :=
  ⟨pbx_copy_string name modelledFieldSize, 0,
   List.replicate SoftKeyModesIds.length ⟨0, none, 0⟩⟩

/-- The key mode selected by a softkeyset section variable name (the if-else
chain of sccp_config_softKeySet); none for "type" and unrecognized names. -/
def keyModeOfVariableName (n : String) : Option Nat :=
  if strcaseEq n "type" then none
  else if strcaseEq n "onhook" then some KEYMODE_ONHOOK
  else if strcaseEq n "connected" then some KEYMODE_CONNECTED
  else if strcaseEq n "onhold" then some KEYMODE_ONHOLD
  else if strcaseEq n "ringin" then some KEYMODE_RINGIN
  else if strcaseEq n "offhook" then some KEYMODE_OFFHOOK
  else if strcaseEq n "conntrans" then some KEYMODE_CONNTRANS
  else if strcaseEq n "digitsfoll" then some KEYMODE_DIGITSFOLL
  else if strcaseEq n "connconf" then some KEYMODE_CONNCONF
  else if strcaseEq n "ringout" then some KEYMODE_RINGOUT
  else if strcaseEq n "offhookfeat" then some KEYMODE_OFFHOOKFEAT
  else if strcaseEq n "onhint" then some KEYMODE_INUSEHINT
  else none

/-- Process one softkeyset section variable: bump numberOfSoftKeySets to cover
the key mode, then replace the matching modes[] slot with a freshly read
buffer; a zero label count clears the slot pointer and count but keeps the
slot id. -/
def softKeySetProcessVariable (conf : sccp_softKeySetConfiguration_t)
    (vname : String) (vvalue : String) : sccp_softKeySetConfiguration_t :=
  match keyModeOfVariableName vname with
  | none => conf
  | some keyMode =>
    let conf :=
      if conf.numberOfSoftKeySets < keyMode + 1 then
        { conf with numberOfSoftKeySets := keyMode + 1 }
      else conf
    let modes := (List.range SoftKeyModesIds.length).map (fun i =>
      let old := (conf.modes[i]?).getD ⟨0, none, 0⟩
      if SoftKeyModesIds.getD i 0 == keyMode then
        let softkeyset := List.replicate StationMaxSoftKeySetDefinition 0
        let r := sccp_config_readSoftSet softkeyset (some vvalue)
        if r.2 > 0 then ⟨keyMode, some r.1, r.2⟩
        else { old with ptr := none, count := 0 }
      else old)
    { conf with modes := modes }

/-- Read a softkey configuration context: find the existing configuration by
name (case-insensitively) or insert a fresh one at the list head, then process
the section variables against it in place. -/
def sccp_config_softKeySet (softKeySetConfig : List sccp_softKeySetConfiguration_t)
    (sectionVars : List (String × String)) (name : String) :
    List sccp_softKeySetConfiguration_t :=
  match softKeySetConfig.findIdx? (fun c => strcaseEq c.name name) with
  | some i =>
    let conf0 := (softKeySetConfig[i]?).getD (freshSoftKeySetConfiguration name)
    let conf1 := sectionVars.foldl (fun c p => softKeySetProcessVariable c p.1 p.2) conf0
    softKeySetConfig.set i conf1
  | none =>
    let conf1 := sectionVars.foldl (fun c p => softKeySetProcessVariable c p.1 p.2)
      (freshSoftKeySetConfiguration name)
    conf1 :: softKeySetConfig

/-! ### Invariant predicates and concrete scenario inputs -/

/-- Invariant of one modes[] slot: the stored label count fits the fixed
capacity and, when a buffer is present, it has the fixed capacity and its
unused slots (from index count on) hold the empty-label sentinel. -/
def modeSlotInvariant (m : softkey_mode_slot) : Prop :=
  m.count ≤ StationMaxSoftKeySetDefinition ∧
  ∀ buf, m.ptr = some buf →
    buf.length = StationMaxSoftKeySetDefinition ∧
    ∀ j, m.count ≤ j → j < StationMaxSoftKeySetDefinition → buf.getD j 0 = SKINNY_LBL_EMPTY

/-- Invariant of a softkey set configuration: every modes[] slot satisfies the
slot invariant. -/
def softKeySetConfInvariant (c : sccp_softKeySetConfiguration_t) : Prop :=
  ∀ m ∈ c.modes, modeSlotInvariant m

/-- The key modes named by a softkeyset section variable list. -/
def mentionedKeyModes (sectionVars : List (String × String)) : List Nat :=
  sectionVars.filterMap (fun p => keyModeOfVariableName p.1)

/-- A freshly created line object (fields calloc-zeroed). -/
def lineFresh : SCCPObject := ⟨"line1", false, false, []⟩

/-- A freshly created device object with id SEP001. -/
def devFresh : SCCPObject := ⟨"SEP001", false, false, []⟩

/-- A freshly created line object owned by device SEP001. -/
def lineSEP : SCCPObject := ⟨"SEP001", false, false, []⟩

/-- Config source for the keepalive scenario: the global section sets
keepalive=45, the device section sets only devicetype=7960. -/
def cfgKeepalive : ast_config :=
  [("general", [("keepalive", "45")]), ("SEP001", [("devicetype", "7960")])]

/-- Config source for the device-default scenario: the device section sets
meetme=off while the general section sets meetme=on. -/
def cfgDeviceDefault : ast_config :=
  [("SEP001", [("meetme", "off")]), ("general", [("meetme", "on")])]

/-- An existing line-type button at index 0, marked pendingDelete by a reload,
with options "old". -/
def existingLineButton : sccp_buttonconfig_t :=
  ⟨0, LINE, true, false, "1000", "1000", "", "", "", "old", "", "", "", 0, ""⟩

/-- The device after a first application of permithost=host1. -/
def devWithHost : SCCPObject :=
  (sccp_config_object_setValue devFresh "permithost" (some "host1") 0
    SCCP_CONFIG_DEVICE_SEGMENT).1

/-- The line option row for meetme (used to instantiate the device-default
resolution theorem). -/
def lineMeetmeOption : SCCPConfigOption :=
  ⟨"meetme", some "meetme", fsz, SCCP_CONFIG_DATATYPE_BOOLEAN,
   SCCP_CONFIG_FLAG_GET_DEVICE_DEFAULT, SCCP_CONFIG_NOUPDATENEEDED, none, none⟩

/-- The device option row for keepalive (used to instantiate the
global-default precedence theorem). -/
def deviceKeepaliveOption : SCCPConfigOption :=
  ⟨"keepalive", some "keepalive", fsz, SCCP_CONFIG_DATATYPE_INT,
   SCCP_CONFIG_FLAG_GET_GLOBAL_DEFAULT, SCCP_CONFIG_NEEDDEVICERESET, none, none⟩

/-- The line option row for pin (used to instantiate the required-option
theorem). -/
def linePinOption : SCCPConfigOption :=
  ⟨"pin", some "pin", fsz, SCCP_CONFIG_DATATYPE_STRING, SCCP_CONFIG_FLAG_REQUIRED,
   SCCP_CONFIG_NOUPDATENEEDED, none, none⟩

/-- The line option row for description (used to instantiate the
case-insensitivity and idempotence theorems). -/
def lineDescriptionOption : SCCPConfigOption :=
  ⟨"description", some "description", fsz, SCCP_CONFIG_DATATYPE_STRING,
   SCCP_CONFIG_FLAG_NONE, SCCP_CONFIG_NOUPDATENEEDED, none, none⟩

/-- A line whose description field holds "Hello". -/
def lineWithDescription : SCCPObject :=
  ⟨"line1", false, false, [("description", FieldValue.strF "Hello")]⟩

/-- A one-element softkey set list built from scratch for the witness of the
in-place update theorem. -/
def softKeySetOne : List sccp_softKeySetConfiguration_t :=
  sccp_config_softKeySet [] [("connected", "hold,endcall")] "mySet"

/-! ### Helper lemmas -/

set_option maxRecDepth 100000

theorem strcaseEq_self (s : String) : strcaseEq s s = true := by
  simp [strcaseEq]

theorem find_setFieldAux (f : String) (v : FieldValue) (l : List (String × FieldValue)) :
    (setFieldAux f v l).find? (fun p => p.1 == f) = some (f, v) := by
  induction l with
  | nil => simp [setFieldAux, List.find?]
  | cons hd tl ih =>
    by_cases hg : hd.1 == f
    · simp [setFieldAux, hg, List.find?]
    · simp only [setFieldAux]
      rw [if_neg (by simp_all)]
      simp [List.find?, hg, ih]

theorem readField_writeField (obj : SCCPObject) (f : String) (v : FieldValue) :
    readField (writeField obj f v) f = some v := by
  simp [readField, writeField, find_setFieldAux]

theorem processPairs_append (segment : sccp_config_segment_t) (table : List SCCPConfigOption)
    (xs ys : List (String × Option String)) (obj : SCCPObject) (res : Nat)
    (already : List Bool) :
    processPairs segment table (xs ++ ys) obj res already =
      processPairs segment table ys
        (processPairs segment table xs obj res already).1
        (processPairs segment table xs obj res already).2.1
        (processPairs segment table xs obj res already).2.2 := by
  induction xs generalizing obj res already with
  | nil => simp [processPairs]
  | cons hd tl ih => simp [processPairs, ih]

theorem land_lor_self_right (a b : Nat) : (a ||| b) &&& b = b := by
  apply Nat.eq_of_testBit_eq
  intro i
  simp only [Nat.testBit_land, Nat.testBit_lor]
  cases b.testBit i <;> simp

theorem land_contains_trans (x a b : Nat) (h : x &&& (a ||| b) = a ||| b) :
    x &&& b = b := by
  apply Nat.eq_of_testBit_eq
  intro i
  have hi := congrArg (fun n => n.testBit i) h
  simp only [Nat.testBit_land, Nat.testBit_lor] at hi
  simp only [Nat.testBit_land]
  cases hb : b.testBit i
  · simp
  · cases ha : a.testBit i <;> simp [hb, ha] at hi <;> simp [hi]

theorem pbx_copy_string_of_lt (v : String) (size : Nat) (hlt : v.length < size) :
    pbx_copy_string v size = v := by
  unfold pbx_copy_string
  have hd : v.data.length ≤ size - 1 := by
    have : v.data.length < size := hlt
    omega
  rw [List.take_of_length_le hd]

theorem asChar_some (c : Char) : asChar (some (FieldValue.charF c)) = c := rfl

theorem asStr_some (s : String) : asStr (some (FieldValue.strF s)) = s := rfl

theorem asStrPtr_some (s : Option String) :
    asStrPtr (some (FieldValue.strptrF s)) = s := rfl

theorem asInt_some (n : Int) : asInt (some (FieldValue.intF n)) = n := rfl

theorem asBool_some (b : Bool) : asBool (some (FieldValue.boolF b)) = b := rfl

theorem land_self_eq (a : Nat) : a &&& a = a := by
  apply Nat.eq_of_testBit_eq
  intro i
  simp [Nat.testBit_land]

theorem processPairs_res_mono (segment : sccp_config_segment_t) (table : List SCCPConfigOption)
    (ys : List (String × Option String)) (obj : SCCPObject) (res : Nat)
    (already : List Bool) :
    (processPairs segment table ys obj res already).2.1 &&& res = res := by
  induction ys generalizing obj res already with
  | nil => simp [processPairs, land_self_eq]
  | cons hd tl ih =>
    simp only [processPairs]
    have h := ih (sccp_config_object_setValue obj hd.1 hd.2 0 segment).1
      (res ||| (sccp_config_object_setValue obj hd.1 hd.2 0 segment).2)
      (markAlreadySet table already hd.1)
    exact land_contains_trans _ ((sccp_config_object_setValue obj hd.1 hd.2 0 segment).2) res
      (by rw [Nat.lor_comm ((sccp_config_object_setValue obj hd.1 hd.2 0 segment).2) res]
          exact h)

/-! ### Claim theorems -/

/-- C1: the spec claims a (name, value) pair whose option is flagged
deprecated (or changed) is warned about but still applied with the old
semantics.  The code contradicts its own flag documentation ("warn user and
still set variable"): the DEPRECATED case of the flags switch falls through
into the OBSOLETE case, which returns before the value is applied.  At the
deprecated-flagged line option test2, applying a fresh value leaves the object
unchanged and returns the no-update classification. -/
theorem C1_deprecated_value_skipped :
    (sccp_find_config SCCP_CONFIG_LINE_SEGMENT "test2").map (fun o => o.flags)
      = some SCCP_CONFIG_FLAG_DEPRECATED ∧
    sccp_config_object_setValue lineFresh "test2" (some "newval") 0 SCCP_CONFIG_LINE_SEGMENT
      = (lineFresh, SCCP_CONFIG_NOUPDATENEEDED) ∧
    readField (sccp_config_object_setValue lineFresh "test2" (some "newval") 0
      SCCP_CONFIG_LINE_SEGMENT).1 "regexten" = none := by decide

/-- C2 counterexample: the claim says a required option supplied with an empty
value records an invalid-value outcome.  The line option label is flagged
required, yet supplying the empty string returns the no-update classification,
not invalid-value: the REQUIRED case only checks for a NULL value. -/
theorem C2_empty_required_not_invalid :
    (sccp_find_config SCCP_CONFIG_LINE_SEGMENT "label").map (fun o => o.flags)
      = some SCCP_CONFIG_FLAG_REQUIRED ∧
    sccp_config_object_setValue lineFresh "label" (some "") 0 SCCP_CONFIG_LINE_SEGMENT
      = (lineFresh, SCCP_CONFIG_NOUPDATENEEDED) ∧
    SCCP_CONFIG_NOUPDATENEEDED ≠ SCCP_CONFIG_CHANGE_INVALIDVALUE := by decide

/-- C3 counterexample: the claim says a value found in the device's own
section of the config source is the value converted and applied for an
inherit-from-device-default option.  The line option meetme is flagged
inherit-from-device-default and the device section sets meetme=off, yet the
reconciled line ends with meetme true, the general section's meetme=on: the
fallthrough into the global-default case overwrites the device-section
value. -/
theorem C3_device_section_value_discarded :
    (sccp_find_config SCCP_CONFIG_LINE_SEGMENT "meetme").map (fun o => o.flags)
      = some SCCP_CONFIG_FLAG_GET_DEVICE_DEFAULT ∧
    pbx_variable_retrieve cfgDeviceDefault lineSEP.id "meetme" = some "off" ∧
    sccp_true (some "off") = false ∧
    readField (sccp_config_applyLineConfiguration cfgDeviceDefault lineSEP []).1 "meetme"
      = some (FieldValue.boolF true) := by decide

/-- C4 counterexample: the claim says inserting a line-type button that
differs from the existing button at the same index only in the options
sub-field yields the changed classification.  Re-adding the existing
pending-delete line button 1000 with options "new" instead of the stored
"old" returns no-change, and the stored options remain "old". -/
theorem C4_options_change_returns_nochange :
    sccp_config_addButton [existingLineButton] 0 LINE "1000" (some "new") none
      = ([{ existingLineButton with pendingDelete := false, pendingUpdate := true }],
         SCCP_CONFIG_CHANGE_NOCHANGE) ∧
    existingLineButton.lineOptions = "old" ∧
    SCCP_CONFIG_CHANGE_NOCHANGE ≠ SCCP_CONFIG_CHANGE_CHANGED := by decide

/-- C6 counterexample: the claim states the fixed maximum of the per-key-mode
softkey arrays is 32; the StationMaxSoftKeySetDefinition capacity used by the
builder is 16 (common.h line 496), as the fixed-capacity buffer produced by a
concrete build shows. -/
theorem C6_fixed_maximum_is_16_not_32 :
    (sccp_config_readSoftSet (List.replicate StationMaxSoftKeySetDefinition 0)
      (some "hold,endcall")).1.length = StationMaxSoftKeySetDefinition ∧
    StationMaxSoftKeySetDefinition ≠ 32 := by decide

/-- C7 counterexample: the claim says applying the same (name, value) pair a
second time returns the no-change classification.  For the generic device
option permithost the converter inserts a fresh list entry on every
application: the second application of permithost=host1 duplicates the entry
and returns the needs-reset classification, not no-change. -/
theorem C7_permithost_not_idempotent :
    readField devWithHost "permithosts" = some (FieldValue.permithostsF ["host1"]) ∧
    (sccp_config_object_setValue devWithHost "permithost" (some "host1") 0
      SCCP_CONFIG_DEVICE_SEGMENT).2 = SCCP_CONFIG_NEEDDEVICERESET ∧
    readField (sccp_config_object_setValue devWithHost "permithost" (some "host1") 0
      SCCP_CONFIG_DEVICE_SEGMENT).1 "permithosts"
      = some (FieldValue.permithostsF ["host1", "host1"]) ∧
    SCCP_CONFIG_NEEDDEVICERESET ≠ SCCP_CONFIG_CHANGE_NOCHANGE := by decide

/-- C8 counterexample: the claim says any changed option marked
needs-device-reset makes the OR-accumulated pass result a needs-reset
classification.  The device option description is a string option marked
needs-device-reset; changing it stores the new value but the pass returns the
raw changed indicator, which does not carry the needs-reset bit: the STRING
case of setValue assigns the changed indicator to the returned classification
directly, bypassing the option's change classification. -/
theorem C8_string_reset_option_missed :
    (sccp_find_config SCCP_CONFIG_DEVICE_SEGMENT "description").map (fun o => o.change)
      = some SCCP_CONFIG_NEEDDEVICERESET ∧
    readField (sccp_config_applyDeviceConfiguration [] devFresh
      [("description", some "hello")]).1 "description" = some (FieldValue.strF "hello") ∧
    (sccp_config_applyDeviceConfiguration [] devFresh [("description", some "hello")]).2
      = SCCP_CONFIG_CHANGE_CHANGED ∧
    SCCP_CONFIG_CHANGE_CHANGED &&& SCCP_CONFIG_NEEDDEVICERESET = 0 ∧
    SCCP_CONFIG_CHANGE_CHANGED ≠ SCCP_CONFIG_NEEDDEVICERESET := by decide

/-- C2 amended: for a line option flagged required (with a storage offset),
the invalid-value outcome is recorded exactly for a NULL supplied value:
setValue returns invalid-value leaving the object untouched, and the
reconciliation pass is not aborted — the remaining pairs are processed
normally with the error merely OR-accumulated into the pass result (an
empty-string value instead goes through the ordinary type dispatch, and a
missing option is handled by default resolution, recording nothing). -/
theorem C2_required_null_value (name : String) (opt : SCCPConfigOption) (f : String)
    (obj : SCCPObject) (ys : List (String × Option String)) (res : Nat)
    (already : List Bool)
    (h : sccp_find_config SCCP_CONFIG_LINE_SEGMENT name = some opt)
    (hflag : opt.flags = SCCP_CONFIG_FLAG_REQUIRED)
    (hoff : opt.offset = some f) :
    sccp_config_object_setValue obj name none 0 SCCP_CONFIG_LINE_SEGMENT
      = (obj, SCCP_CONFIG_CHANGE_INVALIDVALUE) ∧
    processPairs SCCP_CONFIG_LINE_SEGMENT sccpLineConfigOptions ((name, none) :: ys) obj res
      already
      = processPairs SCCP_CONFIG_LINE_SEGMENT sccpLineConfigOptions ys obj
          (res ||| SCCP_CONFIG_CHANGE_INVALIDVALUE)
          (markAlreadySet sccpLineConfigOptions already name) := by
  have h1 : sccp_config_object_setValue obj name none 0 SCCP_CONFIG_LINE_SEGMENT
      = (obj, SCCP_CONFIG_CHANGE_INVALIDVALUE) := by
    simp [sccp_config_object_setValue, h, hoff, hflag, SCCP_CONFIG_FLAG_REQUIRED,
      SCCP_CONFIG_FLAG_IGNORE, SCCP_CONFIG_FLAG_CHANGED, SCCP_CONFIG_FLAG_DEPRECATED,
      SCCP_CONFIG_FLAG_OBSOLETE]
  exact ⟨h1, by simp only [processPairs, h1]⟩

/-- Witness for C2_required_null_value at the required line option pin, with
one further pair in the pass. -/
theorem C2_required_null_value_witness :
    sccp_config_object_setValue lineFresh "pin" none 0 SCCP_CONFIG_LINE_SEGMENT
      = (lineFresh, SCCP_CONFIG_CHANGE_INVALIDVALUE) ∧
    processPairs SCCP_CONFIG_LINE_SEGMENT sccpLineConfigOptions
      [("pin", none), ("description", some "x")] lineFresh 0
      (List.replicate sccpLineConfigOptions.length false)
      = processPairs SCCP_CONFIG_LINE_SEGMENT sccpLineConfigOptions
          [("description", some "x")] lineFresh (0 ||| SCCP_CONFIG_CHANGE_INVALIDVALUE)
          (markAlreadySet sccpLineConfigOptions
            (List.replicate sccpLineConfigOptions.length false) "pin") :=
  C2_required_null_value "pin" linePinOption "pin" lineFresh [("description", some "x")] 0
    (List.replicate sccpLineConfigOptions.length false) (by decide) (by decide) (by decide)

/-- C3 amended: for an option flagged inherit-from-device-default, default
resolution performs the device-section lookup first but the case fallthrough
discards its result: the value actually converted and applied is the general
section's value, else the global segment's compiled default, else the
option's own compiled default. -/
theorem C3_device_default_resolution (cfg : ast_config) (obj : SCCPObject)
    (segment : sccp_config_segment_t) (o : SCCPConfigOption) (carried : Option String)
    (h : o.flags = SCCP_CONFIG_FLAG_GET_DEVICE_DEFAULT) :
    resolveDefaultValue cfg obj segment o carried =
      (match pbx_variable_retrieve cfg "general" o.name with
       | some v => some v
       | none =>
         match sccp_find_config SCCP_CONFIG_GLOBAL_SEGMENT o.name with
         | some gopt =>
           match gopt.defaultValue with
           | some dv => some dv
           | none => o.defaultValue
         | none => o.defaultValue) := by
  simp only [resolveDefaultValue, h]
  rw [if_pos (by decide)]
  cases hr : pbx_variable_retrieve cfg "general" o.name with
  | some v => simp [hr]
  | none =>
    cases hg : sccp_find_config SCCP_CONFIG_GLOBAL_SEGMENT o.name with
    | some gopt => cases hd : gopt.defaultValue <;> simp [hr, hg, hd]
    | none => simp [hr, hg]

/-- Witness for C3_device_default_resolution at the line option meetme with
the device-default scenario config. -/
theorem C3_device_default_resolution_witness :
    resolveDefaultValue cfgDeviceDefault lineSEP SCCP_CONFIG_LINE_SEGMENT
      lineMeetmeOption none =
      (match pbx_variable_retrieve cfgDeviceDefault "general" lineMeetmeOption.name with
       | some v => some v
       | none =>
         match sccp_find_config SCCP_CONFIG_GLOBAL_SEGMENT lineMeetmeOption.name with
         | some gopt =>
           match gopt.defaultValue with
           | some dv => some dv
           | none => lineMeetmeOption.defaultValue
         | none => lineMeetmeOption.defaultValue) :=
  C3_device_default_resolution cfgDeviceDefault lineSEP SCCP_CONFIG_LINE_SEGMENT
    lineMeetmeOption none (by decide)

/-- C5: for an option flagged inherit-from-global-default whose name has a
value in the general section of the config source, that value is the one
resolved and applied, winning over the option's compiled default literal; in
the concrete scenario, a device section carrying devicetype=7960 and no
keepalive, reconciled while the global section sets keepalive=45, ends with
the device keepalive field equal to 45. -/
theorem C5_global_default_wins (cfg : ast_config) (obj : SCCPObject)
    (segment : sccp_config_segment_t) (o : SCCPConfigOption) (carried : Option String)
    (v : String)
    (hflag : o.flags = SCCP_CONFIG_FLAG_GET_GLOBAL_DEFAULT)
    (hval : pbx_variable_retrieve cfg "general" o.name = some v) :
    resolveDefaultValue cfg obj segment o carried = some v ∧
    readField (sccp_config_applyDeviceConfiguration cfgKeepalive devFresh
      [("devicetype", some "7960")]).1 "keepalive" = some (FieldValue.intF 45) := by
  refine ⟨?_, by decide⟩
  simp only [resolveDefaultValue, hflag]
  rw [if_neg (by decide), if_pos (by decide), hval]

/-- Witness for C5_global_default_wins at the device keepalive option with the
keepalive scenario config. -/
theorem C5_global_default_wins_witness :
    resolveDefaultValue cfgKeepalive devFresh SCCP_CONFIG_DEVICE_SEGMENT
      deviceKeepaliveOption none = some "45" ∧
    readField (sccp_config_applyDeviceConfiguration cfgKeepalive devFresh
      [("devicetype", some "7960")]).1 "keepalive" = some (FieldValue.intF 45) :=
  C5_global_default_wins cfgKeepalive devFresh SCCP_CONFIG_DEVICE_SEGMENT
    deviceKeepaliveOption none "45" (by decide) (by decide)

/-- C10: for options of string or string-pointer data type, change detection
is case-insensitive: applying a nonempty value that differs from the stored
string only in letter case is classified as no-change and the object is left
unmodified (the old spelling is kept). -/
theorem C10_string_change_detection_case_insensitive (segment : sccp_config_segment_t)
    (name : String) (opt : SCCPConfigOption) (f : String) (obj : SCCPObject) (v s : String)
    (h : sccp_find_config segment name = some opt)
    (hoff : opt.offset = some f)
    (ht : opt.dataType = SCCP_CONFIG_DATATYPE_STRING ∨
          opt.dataType = SCCP_CONFIG_DATATYPE_STRINGPTR)
    (hv : v ≠ "")
    (hstr : opt.dataType = SCCP_CONFIG_DATATYPE_STRING →
      readField obj f = some (FieldValue.strF s))
    (hptr : opt.dataType = SCCP_CONFIG_DATATYPE_STRINGPTR →
      readField obj f = some (FieldValue.strptrF (some s)))
    (hcase : strcaseEq s v = true) :
    sccp_config_object_setValue obj name (some v) 0 segment
      = (obj, SCCP_CONFIG_NOUPDATENEEDED) := by
  simp only [sccp_config_object_setValue, h, hoff]
  split
  · rfl
  · split
    · rfl
    · split
      · next hc => exact absurd hc.2 (by simp)
      · rcases ht with ht | ht
        · simp only [ht, hstr ht]
          simp [asStr, hcase]
        · have hz : sccp_strlen_zero (some v) = false := by
            cases hb : v.isEmpty
            · simp [sccp_strlen_zero, hb]
            · exact absurd ((String.isEmpty_iff v).mp hb) hv
          simp only [ht, hptr ht]
          simp [asStrPtr, hz, hcase, SCCP_CONFIG_CHANGE_NOCHANGE,
            SCCP_CONFIG_CHANGE_CHANGED, SCCP_CONFIG_NOUPDATENEEDED]

/-- C4 amended: re-inserting a line-type button that matches the existing
pending-delete button at the same index on type, label, composed line name and
subscription id fields returns the no-change classification for EVERY options
sub-field value — both when the options are identical and when they differ —
and the stored options sub-field keeps its previous value: both arms of the
options comparison in the LINE merge case set no-change and break before any
copy. -/
theorem C4_line_button_merge (b : sccp_buttonconfig_t) (name : String) (opts : String)
    (hb1 : b.btype = LINE) (hb2 : b.pendingDelete = true) (hname : name ≠ "")
    (hlabel : b.label = name)
    (hline : b.lineName = (sccp_parseComposedId name 80).mainId)
    (hnum : strcaseEq b.subscriptionIdNumber
      (sccp_parseComposedId name 80).subscriptionIdNumber = true)
    (hsubname : b.subscriptionIdName = (sccp_parseComposedId name 80).subscriptionIdName)
    (haux : b.subscriptionIdAux = (sccp_parseComposedId name 80).subscriptionIdAux) :
    sccp_config_addButton [b] 0 LINE name (some opts) none
      = ([{ b with pendingDelete := false, pendingUpdate := true }],
         SCCP_CONFIG_CHANGE_NOCHANGE) := by
  have hnz : name.isEmpty = false := by
    cases hb : name.isEmpty
    · rfl
    · exact absurd ((String.isEmpty_iff name).mp hb) hname
  simp [sccp_config_addButton, hb1, hb2, hlabel, hline, hnum, hsubname, haux, hnz,
    List.findIdx?, strcaseEq_self]

/-- Witness for C4_line_button_merge at the existing pending-delete button
1000 with identical options. -/
theorem C4_line_button_merge_witness :
    sccp_config_addButton [existingLineButton] 0 LINE "1000" (some "old") none
      = ([{ existingLineButton with pendingDelete := false, pendingUpdate := true }],
         SCCP_CONFIG_CHANGE_NOCHANGE) := by
  have h := C4_line_button_merge existingLineButton "1000" "old" (by decide) (by decide)
    (by decide) (by decide) (by decide) (by decide) (by decide) (by decide)
  simpa using h

/-- C8 amended: reconciliation passes OR-accumulate the per-pair setValue
classifications, so every pair's classification bits survive into the pass
result returned by the apply function; a changed needs-reset option of int,
boolean, string-pointer or generic data type returns the needs-reset
classification, which therefore forces the needs-reset bit in the whole pass
result (shown concretely for the device keepalive int option); string and
char options contribute only the raw changed indicator (see the
counterexample). -/
theorem C8_reset_bit_accumulates (segment : sccp_config_segment_t)
    (table : List SCCPConfigOption) (xs ys : List (String × Option String))
    (n : String) (v : Option String) (obj : SCCPObject) (res : Nat)
    (already : List Bool) :
    ((processPairs segment table (xs ++ (n, v) :: ys) obj res already).2.1 &&&
        (sccp_config_object_setValue (processPairs segment table xs obj res already).1
          n v 0 segment).2
      = (sccp_config_object_setValue (processPairs segment table xs obj res already).1
          n v 0 segment).2) ∧
    (sccp_config_applyDeviceConfiguration [] devFresh
        [("description", some "hello"), ("keepalive", some "300")]).2 &&&
        SCCP_CONFIG_NEEDDEVICERESET
      = SCCP_CONFIG_NEEDDEVICERESET := by
  constructor
  · rw [processPairs_append]
    simp only [processPairs]
    exact land_contains_trans _ _ _
      (processPairs_res_mono segment table ys _ _ _)
  · decide

/-- C7 amended: applying the same (name, value) pair twice in a row returns
the no-change classification on the second application for every option of a
primitive data type (boolean, int, char, string within the field size, and
string-pointer); the generic converter options are exempt — list-valued
converters such as permithosts insert a fresh entry and report a change on
every application. -/
theorem C7_second_application_nochange (segment : sccp_config_segment_t) (name : String)
    (opt : SCCPConfigOption) (obj : SCCPObject) (v : String)
    (h : sccp_find_config segment name = some opt)
    (ht : opt.dataType ≠ SCCP_CONFIG_DATATYPE_GENERIC)
    (hsize : opt.dataType = SCCP_CONFIG_DATATYPE_STRING → v.length < opt.size) :
    sccp_config_object_setValue
      (sccp_config_object_setValue obj name (some v) 0 segment).1 name (some v) 0 segment
      = ((sccp_config_object_setValue obj name (some v) 0 segment).1,
         SCCP_CONFIG_NOUPDATENEEDED) := by
  cases hoff : opt.offset with
  | none => simp [sccp_config_object_setValue, h, hoff]
  | some f =>
    by_cases hig : (opt.flags == SCCP_CONFIG_FLAG_IGNORE) = true
    · simp [sccp_config_object_setValue, h, hoff, hig]
    · by_cases hco : ((opt.flags == SCCP_CONFIG_FLAG_CHANGED) = true ∨
          (opt.flags == SCCP_CONFIG_FLAG_DEPRECATED) = true ∨
          (opt.flags == SCCP_CONFIG_FLAG_OBSOLETE) = true)
      · have h1 : sccp_config_object_setValue obj name (some v) 0 segment
            = (obj, SCCP_CONFIG_NOUPDATENEEDED) := by
          simp only [sccp_config_object_setValue, h, hoff]
          rw [if_neg hig, if_pos hco]
        rw [h1]
        simpa using h1
      · have hig2 : opt.flags ≠ SCCP_CONFIG_FLAG_IGNORE := by simpa using hig
        have hco2 : opt.flags ≠ SCCP_CONFIG_FLAG_CHANGED := by
          intro hx
          exact hco (Or.inl (by simp [hx]))
        have hco3 : opt.flags ≠ SCCP_CONFIG_FLAG_DEPRECATED := by
          intro hx
          exact hco (Or.inr (Or.inl (by simp [hx])))
        have hco4 : opt.flags ≠ SCCP_CONFIG_FLAG_OBSOLETE := by
          intro hx
          exact hco (Or.inr (Or.inr (by simp [hx])))
        cases htype : opt.dataType with
        | SCCP_CONFIG_DATATYPE_GENERIC => exact absurd htype ht
        | SCCP_CONFIG_DATATYPE_CHAR =>
          by_cases hvz : v.isEmpty = true
          · simp [sccp_config_object_setValue, h, hoff, hig2, hco2, hco3, hco4, htype, SCCP_CONFIG_CHANGE_NOCHANGE, SCCP_CONFIG_CHANGE_CHANGED, SCCP_CONFIG_NOUPDATENEEDED,
              sccp_strlen_zero, hvz]
          · have hvz2 : v.isEmpty = false := by simpa using hvz
            by_cases hch : asChar (readField obj f) = ((v.data.head?).getD (Char.ofNat 0))
            · simp [sccp_config_object_setValue, h, hoff, hig2, hco2, hco3, hco4, htype, SCCP_CONFIG_CHANGE_NOCHANGE, SCCP_CONFIG_CHANGE_CHANGED, SCCP_CONFIG_NOUPDATENEEDED,
                sccp_strlen_zero, hvz2, hch]
            · simp [sccp_config_object_setValue, h, hoff, hig2, hco2, hco3, hco4, htype, SCCP_CONFIG_CHANGE_NOCHANGE, SCCP_CONFIG_CHANGE_CHANGED, SCCP_CONFIG_NOUPDATENEEDED,
                sccp_strlen_zero, hvz2, hch, readField_writeField, asChar_some]
        | SCCP_CONFIG_DATATYPE_STRING =>
          by_cases hchg : strcaseEq (asStr (readField obj f)) v = true
          · simp [sccp_config_object_setValue, h, hoff, hig2, hco2, hco3, hco4, htype, SCCP_CONFIG_CHANGE_NOCHANGE, SCCP_CONFIG_CHANGE_CHANGED, SCCP_CONFIG_NOUPDATENEEDED, hchg]
          · have hcopy : pbx_copy_string v opt.size = v :=
              pbx_copy_string_of_lt v opt.size (hsize htype)
            simp [sccp_config_object_setValue, h, hoff, hig2, hco2, hco3, hco4, htype, SCCP_CONFIG_CHANGE_NOCHANGE, SCCP_CONFIG_CHANGE_CHANGED, SCCP_CONFIG_NOUPDATENEEDED,
              hchg, readField_writeField, asStr_some, hcopy, strcaseEq_self]
        | SCCP_CONFIG_DATATYPE_STRINGPTR =>
          by_cases hvz : v.isEmpty = true
          · cases hsp : asStrPtr (readField obj f) with
            | none =>
              simp [sccp_config_object_setValue, h, hoff, hig2, hco2, hco3, hco4, htype, SCCP_CONFIG_CHANGE_NOCHANGE, SCCP_CONFIG_CHANGE_CHANGED, SCCP_CONFIG_NOUPDATENEEDED,
                sccp_strlen_zero, hvz, hsp]
            | some s =>
              by_cases hse : s.isEmpty = true
              · simp [sccp_config_object_setValue, h, hoff, hig2, hco2, hco3, hco4, htype, SCCP_CONFIG_CHANGE_NOCHANGE, SCCP_CONFIG_CHANGE_CHANGED, SCCP_CONFIG_NOUPDATENEEDED,
                  sccp_strlen_zero, hvz, hsp, hse]
              · simp [sccp_config_object_setValue, h, hoff, hig2, hco2, hco3, hco4, htype, SCCP_CONFIG_CHANGE_NOCHANGE, SCCP_CONFIG_CHANGE_CHANGED, SCCP_CONFIG_NOUPDATENEEDED,
                  sccp_strlen_zero, hvz, hsp, hse, readField_writeField, asStrPtr_some]
          · have hvz2 : v.isEmpty = false := by simpa using hvz
            cases hsp : asStrPtr (readField obj f) with
            | some s =>
              by_cases hchg : strcaseEq s v = true
              · simp [sccp_config_object_setValue, h, hoff, hig2, hco2, hco3, hco4, htype, SCCP_CONFIG_CHANGE_NOCHANGE, SCCP_CONFIG_CHANGE_CHANGED, SCCP_CONFIG_NOUPDATENEEDED,
                  sccp_strlen_zero, hvz2, hsp, hchg]
              · simp [sccp_config_object_setValue, h, hoff, hig2, hco2, hco3, hco4, htype, SCCP_CONFIG_CHANGE_NOCHANGE, SCCP_CONFIG_CHANGE_CHANGED, SCCP_CONFIG_NOUPDATENEEDED,
                  sccp_strlen_zero, hvz2, hsp, hchg, readField_writeField, asStrPtr_some,
                  strcaseEq_self]
            | none =>
              simp [sccp_config_object_setValue, h, hoff, hig2, hco2, hco3, hco4, htype, SCCP_CONFIG_CHANGE_NOCHANGE, SCCP_CONFIG_CHANGE_CHANGED, SCCP_CONFIG_NOUPDATENEEDED,
                sccp_strlen_zero, hvz2, hsp, readField_writeField, asStrPtr_some,
                strcaseEq_self]
        | SCCP_CONFIG_DATATYPE_INT =>
          by_cases hvz : v.isEmpty = true
          · simp [sccp_config_object_setValue, h, hoff, hig2, hco2, hco3, hco4, htype, SCCP_CONFIG_CHANGE_NOCHANGE, SCCP_CONFIG_CHANGE_CHANGED, SCCP_CONFIG_NOUPDATENEEDED,
              sccp_strlen_zero, hvz]
          · have hvz2 : v.isEmpty = false := by simpa using hvz
            by_cases hne : asInt (readField obj f) = atoi v
            · simp [sccp_config_object_setValue, h, hoff, hig2, hco2, hco3, hco4, htype, SCCP_CONFIG_CHANGE_NOCHANGE, SCCP_CONFIG_CHANGE_CHANGED, SCCP_CONFIG_NOUPDATENEEDED,
                sccp_strlen_zero, hvz2, hne]
            · simp [sccp_config_object_setValue, h, hoff, hig2, hco2, hco3, hco4, htype, SCCP_CONFIG_CHANGE_NOCHANGE, SCCP_CONFIG_CHANGE_CHANGED, SCCP_CONFIG_NOUPDATENEEDED,
                sccp_strlen_zero, hvz2, hne, readField_writeField, asInt_some]
        | SCCP_CONFIG_DATATYPE_BOOLEAN =>
          by_cases hne : asBool (readField obj f) = sccp_true (some v)
          · simp [sccp_config_object_setValue, h, hoff, hig2, hco2, hco3, hco4, htype, SCCP_CONFIG_CHANGE_NOCHANGE, SCCP_CONFIG_CHANGE_CHANGED, SCCP_CONFIG_NOUPDATENEEDED, hne]
          · simp [sccp_config_object_setValue, h, hoff, hig2, hco2, hco3, hco4, htype, SCCP_CONFIG_CHANGE_NOCHANGE, SCCP_CONFIG_CHANGE_CHANGED, SCCP_CONFIG_NOUPDATENEEDED,
              hne, readField_writeField, asBool_some]

/-- Witness for C7_second_application_nochange at the device description
option. -/
theorem C7_second_application_nochange_witness :
    sccp_config_object_setValue
      (sccp_config_object_setValue devFresh "description" (some "hello") 0
        SCCP_CONFIG_DEVICE_SEGMENT).1 "description" (some "hello") 0
      SCCP_CONFIG_DEVICE_SEGMENT
      = ((sccp_config_object_setValue devFresh "description" (some "hello") 0
          SCCP_CONFIG_DEVICE_SEGMENT).1, SCCP_CONFIG_NOUPDATENEEDED) :=
  C7_second_application_nochange SCCP_CONFIG_DEVICE_SEGMENT "description"
    ⟨"description", some "description", fsz, SCCP_CONFIG_DATATYPE_STRING,
     SCCP_CONFIG_FLAG_NONE, SCCP_CONFIG_NEEDDEVICERESET, none, none⟩
    devFresh "hello" (by decide) (by decide) (fun _ => by decide)

/-- Witness for C10_string_change_detection_case_insensitive at the line
description option: the stored "Hello" compared with the supplied "HELLO". -/
theorem C10_string_change_detection_case_insensitive_witness :
    sccp_config_object_setValue lineWithDescription "description" (some "HELLO") 0
      SCCP_CONFIG_LINE_SEGMENT = (lineWithDescription, SCCP_CONFIG_NOUPDATENEEDED) :=
  C10_string_change_detection_case_insensitive SCCP_CONFIG_LINE_SEGMENT "description"
    lineDescriptionOption "description" lineWithDescription "HELLO" "Hello"
    (by decide) (by decide) (Or.inl (by decide)) (by decide)
    (fun _ => by decide) (fun hx => absurd hx (by decide)) (by decide)

/-- getD of a replicate at an index below the length. -/
theorem getD_replicate_lt (n m a d : Nat) (hm : m < n) :
    (List.replicate n a).getD m d = a := by
  induction n generalizing m with
  | zero => omega
  | succ k ih =>
    cases m with
    | zero => simp [List.replicate]
    | succ m2 =>
      rw [List.replicate_succ, List.getD_cons_succ]
      exact ih m2 (by omega)

/-- getD of an append at an index past the first part. -/
theorem getD_append_right_of_le (l1 l2 : List Nat) (n d : Nat) (h : l1.length ≤ n) :
    (l1 ++ l2).getD n d = l2.getD (n - l1.length) d := by
  simp [List.getD, List.getElem?_append_right h]

/-- The pad step of readSoftSet on a written prefix over a zeroed tail: taking
written + 1 slots and padding the rest yields written followed by zeros. -/
theorem pad_shape (w : List Nat) (i : Nat) (hwlen : w.length = i) (hi : i ≤ 15) :
    (w ++ List.replicate (16 - i) (0 : Nat)).take (i + 1) ++
      List.replicate (16 - (i + 1)) 0 = w ++ List.replicate (16 - i) 0 := by
  rw [List.take_append_eq_append_take, hwlen,
      List.take_of_length_le (by omega), List.take_replicate]
  have h1 : min (i + 1 - i) (16 - i) = 1 := by omega
  have h2 : 16 - (i + 1) = 15 - i := by omega
  rw [h1, h2, List.append_assoc, ← List.replicate_add]
  have h3 : 1 + (15 - i) = 16 - i := by omega
  rw [h3]

/-- Reading a label list into a fresh zeroed buffer produces the mapped label
prefix followed by empty-sentinel padding, with the prefix length as count. -/
theorem readSoftSet_fresh (d : String) :
    sccp_config_readSoftSet (List.replicate StationMaxSoftKeySetDefinition 0) (some d)
      = (((splitOnChar ',' d).take (min (splitOnChar ',' d).length 15)).map
          sccp_config_getSoftkeyLbl ++
         List.replicate (16 - min (splitOnChar ',' d).length 15) 0,
         min (splitOnChar ',' d).length 15) := by
  norm_num [sccp_config_readSoftSet, StationMaxSoftKeySetDefinition, SKINNY_LBL_EMPTY]
  exact pad_shape
    (((splitOnChar ',' d).map sccp_config_getSoftkeyLbl).take
      (min (splitOnChar ',' d).length 15))
    (min (splitOnChar ',' d).length 15)
    (by simp only [List.length_take, List.length_map]; omega)
    (Nat.min_le_right ..)

/-- The buffer returned by readSoftSet on a fresh zeroed buffer satisfies the
slot invariant data: count at most the capacity, full-capacity buffer, unused
slots empty. -/
theorem readSoftSet_fresh_inv (d : String) :
    (sccp_config_readSoftSet (List.replicate StationMaxSoftKeySetDefinition 0)
        (some d)).2 ≤ StationMaxSoftKeySetDefinition ∧
    (sccp_config_readSoftSet (List.replicate StationMaxSoftKeySetDefinition 0)
        (some d)).1.length = StationMaxSoftKeySetDefinition ∧
    ∀ j, (sccp_config_readSoftSet (List.replicate StationMaxSoftKeySetDefinition 0)
        (some d)).2 ≤ j → j < StationMaxSoftKeySetDefinition →
      (sccp_config_readSoftSet (List.replicate StationMaxSoftKeySetDefinition 0)
        (some d)).1.getD j 0 = SKINNY_LBL_EMPTY := by
  rw [readSoftSet_fresh]
  simp only [StationMaxSoftKeySetDefinition, SKINNY_LBL_EMPTY]
  have hw : (((splitOnChar ',' d).take (min (splitOnChar ',' d).length 15)).map
      sccp_config_getSoftkeyLbl).length = min (splitOnChar ',' d).length 15 := by
    simp only [List.length_map, List.length_take]; omega
  refine ⟨by omega, ?_, ?_⟩
  · simp only [List.length_append, List.length_replicate, hw]; omega
  · intro j hj1 hj2
    rw [getD_append_right_of_le _ _ _ _ (by omega), hw]
    exact getD_replicate_lt _ _ _ _ (by omega)

/-- Every slot produced by the per-key-mode modes rebuild of
softKeySetProcessVariable satisfies the slot invariant, given the old slots
did. -/
theorem modes_map_slot_invariant (cm : List softkey_mode_slot) (keyMode : Nat)
    (vvalue : String) (hcm : ∀ m ∈ cm, modeSlotInvariant m) :
    ∀ m ∈ (List.range SoftKeyModesIds.length).map (fun i =>
      let old := (cm[i]?).getD ⟨0, none, 0⟩
      if SoftKeyModesIds.getD i 0 == keyMode then
        let softkeyset := List.replicate StationMaxSoftKeySetDefinition 0
        let r := sccp_config_readSoftSet softkeyset (some vvalue)
        if r.2 > 0 then ⟨keyMode, some r.1, r.2⟩
        else { old with ptr := none, count := 0 }
      else old), modeSlotInvariant m := by
  intro m hm
  simp only [List.mem_map, List.mem_range] at hm
  obtain ⟨idx, hidx, rfl⟩ := hm
  have hold : modeSlotInvariant ((cm[idx]?).getD ⟨0, none, 0⟩) := by
    cases hg : cm[idx]? with
    | none => exact ⟨Nat.zero_le _, fun buf h => nomatch h⟩
    | some x => exact hcm x (List.getElem?_mem hg)
  by_cases hid : (SoftKeyModesIds.getD idx 0 == keyMode) = true
  · simp only [hid, if_true]
    by_cases hr : (sccp_config_readSoftSet
        (List.replicate StationMaxSoftKeySetDefinition 0) (some vvalue)).2 > 0
    · rw [if_pos hr]
      obtain ⟨h1, h2, h3⟩ := readSoftSet_fresh_inv vvalue
      exact ⟨h1, fun buf hbuf => by
        cases hbuf
        exact ⟨h2, fun j hj1 hj2 => h3 j hj1 hj2⟩⟩
    · rw [if_neg hr]
      exact ⟨Nat.zero_le _, fun buf h => nomatch h⟩
  · rw [if_neg hid]
    exact hold

/-- softKeySetProcessVariable preserves the softkey set configuration
invariant. -/
theorem processVariable_invariant (c : sccp_softKeySetConfiguration_t)
    (vname vvalue : String) (hc : softKeySetConfInvariant c) :
    softKeySetConfInvariant (softKeySetProcessVariable c vname vvalue) := by
  cases hk : keyModeOfVariableName vname with
  | none => simpa only [softKeySetProcessVariable, hk] using hc
  | some keyMode =>
    simp only [softKeySetProcessVariable, hk]
    by_cases hn : c.numberOfSoftKeySets < keyMode + 1
    · rw [if_pos hn]
      intro m hm
      exact modes_map_slot_invariant c.modes keyMode vvalue hc m hm
    · rw [if_neg hn]
      intro m hm
      exact modes_map_slot_invariant c.modes keyMode vvalue hc m hm

/-- Folding the section variables through softKeySetProcessVariable preserves
the softkey set configuration invariant. -/
theorem fold_invariant (sectionVars : List (String × String))
    (c : sccp_softKeySetConfiguration_t) (hc : softKeySetConfInvariant c) :
    softKeySetConfInvariant
      (sectionVars.foldl (fun a p => softKeySetProcessVariable a p.1 p.2) c) := by
  induction sectionVars generalizing c with
  | nil => exact hc
  | cons p rest ih =>
    rw [List.foldl_cons]
    exact ih _ (processVariable_invariant c p.1 p.2 hc)

/-- A calloc-zeroed softkey set configuration satisfies the invariant. -/
theorem fresh_invariant (nm : String) :
    softKeySetConfInvariant (freshSoftKeySetConfiguration nm) := by
  intro m hm
  simp only [freshSoftKeySetConfiguration, List.mem_replicate] at hm
  rw [hm.2]
  exact ⟨Nat.zero_le _, fun buf h => nomatch h⟩

/-- C6 amended: every softkey set configuration built by sccp_config_softKeySet
from any section variables (each value a comma-separated label list) satisfies
the invariant with the fixed maximum StationMaxSoftKeySetDefinition = 16 — not
32 as claimed: every per-key-mode label count is at most 16 (in fact at most
15 labels are ever written), and every present buffer has capacity 16 with all
unused slots from the count on holding the empty-label sentinel. -/
theorem C6_softkey_invariant (ss : List sccp_softKeySetConfiguration_t)
    (sectionVars : List (String × String)) (name : String)
    (hss : ∀ c ∈ ss, softKeySetConfInvariant c) :
    ∀ c ∈ sccp_config_softKeySet ss sectionVars name, softKeySetConfInvariant c := by
  intro c hcmem
  cases hf : ss.findIdx? (fun x => strcaseEq x.name name) with
  | some i =>
    simp only [sccp_config_softKeySet, hf] at hcmem
    rcases List.mem_or_eq_of_mem_set hcmem with h | h
    · exact hss c h
    · subst h
      apply fold_invariant
      cases hg : ss[i]? with
      | none => exact fresh_invariant name
      | some x => exact hss x (List.getElem?_mem hg)
  | none =>
    simp only [sccp_config_softKeySet, hf] at hcmem
    rcases List.mem_cons.mp hcmem with h | h
    · subst h
      exact fold_invariant _ _ (fresh_invariant name)
    · exact hss c h

/-- Witness for C6_softkey_invariant: the configuration built from scratch for
section variable connected=hold,endcall satisfies the invariant. -/
theorem C6_softkey_invariant_witness :
    softKeySetConfInvariant ((sccp_config_softKeySet [] [("connected", "hold,endcall")]
      "mySet").getD 0 (freshSoftKeySetConfiguration "mySet")) := by
  have h := C6_softkey_invariant [] [("connected", "hold,endcall")] "mySet"
    (fun c hc => nomatch hc)
  exact h _ (by decide)

/-- The SoftKeyModes table ids are the positions 0..11 in declaration order. -/
theorem SoftKeyModesIds_getD :
    ∀ m, m < SoftKeyModesIds.length → SoftKeyModesIds.getD m 0 = m := by decide

/-- softKeySetProcessVariable never changes the configuration name. -/
theorem processVariable_name (c : sccp_softKeySetConfiguration_t) (a b : String) :
    (softKeySetProcessVariable c a b).name = c.name := by
  cases hk : keyModeOfVariableName a with
  | none => simp only [softKeySetProcessVariable, hk]
  | some k =>
    simp only [softKeySetProcessVariable, hk]
    split <;> rfl

/-- Folding section variables through softKeySetProcessVariable never changes
the configuration name. -/
theorem fold_name (sectionVars : List (String × String))
    (c : sccp_softKeySetConfiguration_t) :
    (sectionVars.foldl (fun a p => softKeySetProcessVariable a p.1 p.2) c).name
      = c.name := by
  induction sectionVars generalizing c with
  | nil => rfl
  | cons p rest ih => rw [List.foldl_cons, ih, processVariable_name]

/-- softKeySetProcessVariable preserves a full-width modes array. -/
theorem processVariable_modes_length (c : sccp_softKeySetConfiguration_t)
    (a b : String) (hc : c.modes.length = SoftKeyModesIds.length) :
    (softKeySetProcessVariable c a b).modes.length = SoftKeyModesIds.length := by
  cases hk : keyModeOfVariableName a with
  | none => simp only [softKeySetProcessVariable, hk]; exact hc
  | some k =>
    simp only [softKeySetProcessVariable, hk]
    split <;> simp

/-- A section variable that does not name key mode m leaves modes slot m of
the configuration unchanged. -/
theorem processVariable_modes_unmentioned (c : sccp_softKeySetConfiguration_t)
    (a b : String) (m : Nat) (hc : c.modes.length = SoftKeyModesIds.length)
    (hm : ∀ k, keyModeOfVariableName a = some k → m ≠ k) :
    (softKeySetProcessVariable c a b).modes[m]? = c.modes[m]? := by
  cases hk : keyModeOfVariableName a with
  | none => simp only [softKeySetProcessVariable, hk]
  | some k =>
    have hmk : m ≠ k := hm k hk
    simp only [softKeySetProcessVariable, hk]
    by_cases hlt : m < SoftKeyModesIds.length
    · have hgd : SoftKeyModesIds[m]?.getD 0 = m := by
        simpa [List.getD] using SoftKeyModesIds_getD m hlt
      have hid : ¬SoftKeyModesIds[m]?.getD 0 = k := by
        rw [hgd]; exact hmk
      have hcm : c.modes[m]? = some (c.modes.get ⟨m, by omega⟩) :=
        List.getElem?_eq_getElem (by omega)
      by_cases hn : c.numberOfSoftKeySets < k + 1 <;>
        simp [List.getElem?_map, List.getElem?_range hlt, hid, hcm, hn]
    · have h0 : (List.range SoftKeyModesIds.length)[m]? = none :=
        List.getElem?_eq_none (by simpa using Nat.le_of_not_lt hlt)
      have h2 : c.modes[m]? = none := List.getElem?_eq_none (by omega)
      simp [List.getElem?_map, h0, h2]

/-- Folding section variables that never name key mode m leaves modes slot m
unchanged, provided the configuration starts with a full-width modes array. -/
theorem fold_modes_unmentioned (sectionVars : List (String × String))
    (c : sccp_softKeySetConfiguration_t) (m : Nat)
    (hc : c.modes.length = SoftKeyModesIds.length)
    (hm : m ∉ mentionedKeyModes sectionVars) :
    (sectionVars.foldl (fun a p => softKeySetProcessVariable a p.1 p.2) c).modes[m]?
      = c.modes[m]? := by
  induction sectionVars generalizing c with
  | nil => rfl
  | cons p rest ih =>
    have hsplit : (∀ k, keyModeOfVariableName p.1 = some k → m ≠ k) ∧
        m ∉ mentionedKeyModes rest := by
      unfold mentionedKeyModes at hm ⊢
      rw [List.filterMap_cons] at hm
      cases hk : keyModeOfVariableName p.1 with
      | none =>
        rw [hk] at hm
        refine ⟨?_, hm⟩
        intro k h
        cases h
      | some k =>
        rw [hk] at hm
        simp only [List.mem_cons] at hm
        push_neg at hm
        refine ⟨?_, hm.2⟩
        intro k2 h2
        injection h2 with h3
        rw [← h3]
        exact hm.1
    rw [List.foldl_cons,
      ih _ (processVariable_modes_length c p.1 p.2 hc) hsplit.2,
      processVariable_modes_unmentioned c p.1 p.2 m hc hsplit.1]

/-- C9: invoking sccp_config_softKeySet with a name that case-insensitively
matches an existing configuration (at list index i) updates that entry in
place: the result is the original list with only entry i replaced by the
folded configuration, so the length is unchanged, every other entry is
unchanged, and no duplicate entry is inserted; the updated entry keeps its
name, and every key mode not named by the input section variables keeps its
modes slot unchanged. -/
theorem C9_softkeyset_update_in_place (ss : List sccp_softKeySetConfiguration_t)
    (sectionVars : List (String × String)) (name : String) (i : Nat)
    (c : sccp_softKeySetConfiguration_t)
    (hfind : ss.findIdx? (fun x => strcaseEq x.name name) = some i)
    (hget : ss[i]? = some c)
    (hmodes : c.modes.length = SoftKeyModesIds.length) :
    sccp_config_softKeySet ss sectionVars name
      = ss.set i (sectionVars.foldl (fun a p => softKeySetProcessVariable a p.1 p.2) c) ∧
    (sccp_config_softKeySet ss sectionVars name).length = ss.length ∧
    (∀ j, j ≠ i → (sccp_config_softKeySet ss sectionVars name)[j]? = ss[j]?) ∧
    (sectionVars.foldl (fun a p => softKeySetProcessVariable a p.1 p.2) c).name
      = c.name ∧
    ∀ m, m ∉ mentionedKeyModes sectionVars →
      (sectionVars.foldl (fun a p => softKeySetProcessVariable a p.1 p.2) c).modes[m]?
        = c.modes[m]? := by
  have h1 : sccp_config_softKeySet ss sectionVars name
      = ss.set i (sectionVars.foldl (fun a p => softKeySetProcessVariable a p.1 p.2) c) := by
    simp only [sccp_config_softKeySet, hfind, hget, Option.getD_some]
  refine ⟨h1, ?_, ?_, fold_name sectionVars c, ?_⟩
  · rw [h1]; exact List.length_set ..
  · intro j hj
    rw [h1]
    exact List.getElem?_set_ne (fun he => hj he.symm)
  · intro m hm
    exact fold_modes_unmentioned sectionVars c m hmodes hm

/-- Witness for C9_softkeyset_update_in_place: the set built for mySet is
updated in place when re-read under the spelling MYSET with a new onhook list,
keeping the connected slot. -/
theorem C9_softkeyset_update_in_place_witness :
    sccp_config_softKeySet softKeySetOne [("onhook", "redial,newcall")] "MYSET"
      = softKeySetOne.set 0
        ([(("onhook", "redial,newcall") : String × String)].foldl
          (fun a p => softKeySetProcessVariable a p.1 p.2)
          (softKeySetOne.getD 0 (freshSoftKeySetConfiguration "mySet"))) ∧
    (sccp_config_softKeySet softKeySetOne [("onhook", "redial,newcall")]
      "MYSET").length = softKeySetOne.length ∧
    ([(("onhook", "redial,newcall") : String × String)].foldl
      (fun a p => softKeySetProcessVariable a p.1 p.2)
      (softKeySetOne.getD 0 (freshSoftKeySetConfiguration "mySet"))).name
      = (softKeySetOne.getD 0 (freshSoftKeySetConfiguration "mySet")).name ∧
    ([(("onhook", "redial,newcall") : String × String)].foldl
      (fun a p => softKeySetProcessVariable a p.1 p.2)
      (softKeySetOne.getD 0 (freshSoftKeySetConfiguration "mySet"))).modes[
        KEYMODE_CONNECTED]?
      = (softKeySetOne.getD 0 (freshSoftKeySetConfiguration "mySet")).modes[
          KEYMODE_CONNECTED]? := by
  have h := C9_softkeyset_update_in_place softKeySetOne
    [("onhook", "redial,newcall")] "MYSET" 0
    (softKeySetOne.getD 0 (freshSoftKeySetConfiguration "mySet"))
    (by decide) (by decide) (by decide)
  exact ⟨h.1, h.2.1, h.2.2.2.1, h.2.2.2.2 KEYMODE_CONNECTED (by decide)⟩

end ChanSCCP
